import Mathlib

/-!
# Verification of the license reconciliation engine of `ros_license_toolkit`

This file gives a shallow embedding, in Lean 4, of the core data model and
algorithms of the `ros_license_toolkit` repository
(`src/ros_license_toolkit/…`): the tri-state verdict model, the license-tag
model built from `package.xml`, the ownership- and text-file-inference passes,
the individual reconciliation checks, the verdict aggregation of `main.py`,
and the Levenshtein-based text-similarity helper.

External effects (the `scancode` scanner, the filesystem walk, glob
expansion, network fetches of SPDX reference data) are modelled as explicit
inputs/oracles, following the repository's own interface boundaries; Python
exceptions (`PackageException`, `AssertionError`, `ZeroDivisionError`) are
modelled with `Except`.
-/

/-! ## Verdict model (`checks.py`, `class Status(IntEnum)`) -/

/-- `Status` from `checks.py`: `SUCCESS = 0`, `WARNING = 1`, `FAILURE = 2`. -/
inductive Status : Type
  | SUCCESS
  | WARNING
  | FAILURE
deriving DecidableEq, Repr

namespace Status

/-- The underlying `IntEnum` value of a `Status`. -/
def toNat : Status → Nat
  | .SUCCESS => 0
  | .WARNING => 1
  | .FAILURE => 2

/-- Python `max` on two `Status` values compares the `IntEnum` values. -/
def max2 (a b : Status) : Status := if a.toNat ≤ b.toNat then b else a

end Status

/-- Python `max(...)` over a nonempty sequence of statuses; `none` models the
`ValueError` that `max` raises on an empty sequence. -/
def pyMaxStatus : List Status → Option Status
  | [] => none
  | s :: rest => some (rest.foldl Status.max2 s)

/-- Maximum severity of a list of statuses (spec side, `SUCCESS` on `[]`). -/
def maxStatus (l : List Status) : Status := l.foldl Status.max2 .SUCCESS

/-! ## Scan results (`scancode.api.get_licenses` output, `common.py`) -/

/-- The part of a `scancode` result dict that the engine reads.  `scancode`
always emits both keys, so they are plain fields here:
`percentage_of_license_text` (a score in percent) and
`detected_license_expression_spdx` (an SPDX expression, `""` when none). -/
structure ScanResult : Type where
  percentage_of_license_text : ℚ
  detected_license_expression_spdx : String
deriving DecidableEq, Repr

/-- `REQUIRED_PERCENTAGE_OF_LICENSE_TEXT = 90.0` from `common.py`. -/
def REQUIRED_PERCENTAGE_OF_LICENSE_TEXT : ℚ := 90

/-- `common.get_spdx_license_name`: the detected SPDX expression if the
license-text percentage is at least the required threshold, else `None`. -/
def get_spdx_license_name (scan_results : ScanResult) : Option String :=
  if REQUIRED_PERCENTAGE_OF_LICENSE_TEXT ≤ scan_results.percentage_of_license_text then
    some scan_results.detected_license_expression_spdx
  else
    none

/-- Python truthiness of an `Optional[str]`: `None` and `""` are falsy. -/
def optTruthy : Option String → Bool
  | none => false
  | some s => s ≠ ""

/-! ## Similarity helper
(`license_text_exists_check.py`, `get_similarity_percent`) -/

/-- Round-half-to-even (banker's rounding), the semantics of Python's
built-in `round` on ties. -/
def roundHalfToEven (q : ℚ) : ℤ :=
  let n := ⌊q⌋
  let r := q - n
  if r < 1 / 2 then n
  else if 1 / 2 < r then n + 1
  else if Even n then n else n + 1

/-- Python `round(q, 2)`. -/
def pythonRound2 (q : ℚ) : ℚ := (roundHalfToEven (100 * q) : ℚ) / 100

/-- `SIMILARITY_THRESHOLD = 90` from `license_text_exists_check.py`. -/
def SIMILARITY_THRESHOLD : ℚ := 90

/-- `LicenseTextExistsCheck.get_similarity_percent`: Levenshtein distance of
the two texts, regularized by the longer length, in percent and rounded to
two decimals.  `none` models the uncaught `ZeroDivisionError` raised when
both texts are empty (then `bigger == 0`). -/
def get_similarity_percent (text1 text2 : String) : Option ℚ :=
  let lev_dis := levenshtein Levenshtein.defaultCost text1.data text2.data
  let bigger := max text1.length text2.length
  if bigger = 0 then none
  else some (pythonRound2 (100 * ((bigger : ℚ) - (lev_dis : ℚ)) / (bigger : ℚ)))

/-! ## Python dicts as insertion-ordered association lists -/

/-- A Python `dict` with string keys: insertion-ordered association list
with unique keys. -/
abbrev Dict (A : Type) := List (String × A)

/-- `d[k]` / `k in d`: first binding of `k`. -/
def dictLookup {A : Type} (d : Dict A) (k : String) : Option A :=
  match d with
  | [] => none
  | (k', v) :: rest => if k' = k then some v else dictLookup rest k

/-- `k in d`. -/
def dictHasKey {A : Type} (d : Dict A) (k : String) : Bool :=
  (dictLookup d k).isSome

/-- `d[k] = v`: replace the value at an existing key (keeping its position),
else append a new binding. -/
def dictInsert {A : Type} (d : Dict A) (k : String) (v : A) : Dict A :=
  match d with
  | [] => [(k, v)]
  | (k', v') :: rest => if k' = k then (k, v) :: rest else (k', v') :: dictInsert rest k v

/-- Python `needle in hay` on strings: substring test. -/
def pyStrIn (needle hay : String) : Bool :=
  decide (needle.data <:+: hay.data)

-- Decidable equality for `Except`, to evaluate concrete runs of fallible code.
deriving instance DecidableEq for Except

/-! ## Python exceptions relevant to the engine -/

/-- The Python exceptions the modelled code can raise:
`PackageException` subclasses (from `package.py`), `AssertionError`, and the
`ZeroDivisionError` of `get_similarity_percent`.  The string is `str(ex)`. -/
inductive PyError : Type
  | packageException (msg : String)
  | assertionError (msg : String)
  | zeroDivisionError
deriving DecidableEq, Repr

/-! ## License tags (`license_tag.py`) -/

/-- `is_license_name_in_spdx_list`: membership in the recognized SPDX
vocabulary.  The vocabulary itself is fetched from the network and cached on
disk, so it is an explicit input `spdx_list` here. -/
def is_license_name_in_spdx_list (spdx_list : List String) (license_name : String) : Bool :=
  spdx_list.contains license_name

/-- One raw `<license>` entry of a `package.xml` manifest, as consumed by
`LicenseTag.__init__`: the tag text, the optional `file` attribute, and the
optional `source-files` attribute.  Glob expansion (`_eval_glob`) touches the
filesystem, so the attribute arrives already resolved to a file set
(`none` models a missing attribute, for which the code keeps
`_source_files = None` and the `"**"` catch-all string). -/
structure RawLicense : Type where
  text : String
  file_attr : Option String
  source_files_attr : Option (Finset String)

/-- `LicenseTag`: a parsed license tag. -/
structure LicenseTag : Type where
  id : String
  id_from_license_text : Option String
  license_text_file : Option String
  source_files : Option (Finset String)
deriving DecidableEq

/-- `LicenseTag.has_license_text_file`. -/
def LicenseTag.has_license_text_file (t : LicenseTag) : Bool :=
  t.license_text_file.isSome

/-- `LicenseTag.has_source_files`. -/
def LicenseTag.has_source_files (t : LicenseTag) : Bool :=
  t.source_files.isSome

/-- Structure update `tag.source_files = S` (as performed by
`make_this_the_main_license`), named so that statements stay one-liners. -/
def LicenseTag.withSourceFiles (t : LicenseTag) (S : Finset String) : LicenseTag :=
  { t with source_files := some S }

/-- `get_id_from_license_text`: the detected SPDX expression of a license
file's scan result (the key is always present in a scan result, cf.
`ScanResult`). -/
def get_id_from_license_text (res : ScanResult) : String :=
  res.detected_license_expression_spdx

/-- `LicenseTag.__init__`, given the already-looked-up scan result of the
linked license file (cf. `Package.license_tags`, which passes
`found_license_texts[license_file]` when the `file` attribute is a key of
the scanned license texts). -/
def mkLicenseTag (found_license_texts : Dict ScanResult) (raw : RawLicense) : LicenseTag :=
  { id := raw.text
    id_from_license_text :=
      match raw.file_attr with
      | some f =>
        match dictLookup found_license_texts f with
        | some res => some (get_id_from_license_text res)
        | none => none
      | none => none
    license_text_file := raw.file_attr
    source_files := raw.source_files_attr }

/-- The set subtraction loop of `LicenseTag.make_this_the_main_license`:
start from the full file set (`_eval_glob("**")`, given here as `allFiles`)
and subtract every other declaration's source files.  At the call site every
other tag has source files (enforced by the caller's guard), so the `assert`
in `source_files` cannot fire; `getD ∅` is that guarded access. -/
def make_main_source_files (allFiles : Finset String) (others : List LicenseTag) : Finset String :=
  others.foldl (fun acc o => acc \ (o.source_files.getD ∅)) allFiles

/-- The loop of `Package._check_single_license_tag_without_source_files`: the
first tag without a `source-files` attribute becomes the main license (its
set is the remainder), then the loop breaks.  `seen` are the tags already
passed over (they count as "other licenses" too). -/
def set_main_license (allFiles : Finset String) (seen : List LicenseTag) :
    List LicenseTag → List LicenseTag
  | [] => []
  | t :: rest =>
    if t.has_source_files then
      t :: set_main_license allFiles (seen ++ [t]) rest
    else
      { t with source_files := some (make_main_source_files allFiles (seen ++ rest)) } :: rest

/-- `Package._check_single_license_tag_without_source_files`: more than one
tag without `source-files` raises `MoreThanOneLicenseWithoutSourceFilesTag`;
otherwise the sole such tag (if any) becomes the main license. -/
def check_single_license_tag_without_source_files (allFiles : Finset String)
    (tags : List LicenseTag) : Except PyError (List LicenseTag) :=
  if 1 < (tags.filter (fun t => ! t.has_source_files)).length then
    .error (.packageException "There must be at most one license tag without source-files.")
  else
    .ok (set_main_license allFiles [] tags)

/-- The inference body of
`Package._check_single_license_tag_without_file_attribute` for one tag
without a `file` attribute: (1) if exactly one license text was detected by
content, link it; else link the first detected text whose path contains
`"LICENSE"`; (2) afterwards — unconditionally — if the package root directory
listing (`os.listdir`) has exactly one name containing `"LICENSE"` or
`"COPYING"`, link that name (overriding step 1). -/
def infer_license_text_file (found_license_texts : Dict ScanResult)
    (dir_listing : List String) (t : LicenseTag) : LicenseTag :=
  let t1 :=
    match found_license_texts with
    | [(k, _)] => { t with license_text_file := some k }
    | _ =>
      match (found_license_texts.map Prod.fst).find? (fun k => pyStrIn "LICENSE" k) with
      | some k => { t with license_text_file := some k }
      | none => t
  let potential_license_files :=
    dir_listing.filter (fun f => pyStrIn "LICENSE" f || pyStrIn "COPYING" f)
  match potential_license_files with
  | [f] => { t1 with license_text_file := some f }
  | _ => t1

/-- The loop of `Package._check_single_license_tag_without_file_attribute`:
the first tag without a `file` attribute gets the inference, then the loop
breaks. -/
def set_inferred_text_file (found_license_texts : Dict ScanResult)
    (dir_listing : List String) : List LicenseTag → List LicenseTag
  | [] => []
  | t :: rest =>
    if t.has_license_text_file then
      t :: set_inferred_text_file found_license_texts dir_listing rest
    else
      infer_license_text_file found_license_texts dir_listing t :: rest

/-- `Package._check_single_license_tag_without_file_attribute`: more than one
tag without a `file` attribute raises
`MoreThanOneLicenseWithoutLicenseTextFile`; otherwise the sole such tag (if
any) gets a text file inferred. -/
def check_single_license_tag_without_file_attribute (found_license_texts : Dict ScanResult)
    (dir_listing : List String) (tags : List LicenseTag) : Except PyError (List LicenseTag) :=
  if 1 < (tags.filter (fun t => ! t.has_license_text_file)).length then
    .error (.packageException "There must be at most one license tag without a license text file.")
  else
    .ok (set_inferred_text_file found_license_texts dir_listing tags)

/-- `Package._check_for_single_tag_without_file`: with exactly one tag and
exactly one detected license text, a still-unset `id_from_license_text` is
filled from that text's detected SPDX expression. -/
def check_for_single_tag_without_file (found_license_texts : Dict ScanResult)
    (tags : List LicenseTag) : List LicenseTag :=
  match tags, found_license_texts with
  | [t], [(_, res)] =>
    if t.id_from_license_text = none then
      [{ t with id_from_license_text := some res.detected_license_expression_spdx }]
    else [t]
  | _, _ => tags

/-- Python dict assignment `self._license_tags[tag.get_license_id()] = tag`:
two tags declaring the same identifier collapse to one (the later value, at
the earlier position). -/
def insertLicenseTag : List LicenseTag → LicenseTag → List LicenseTag
  | [], t => [t]
  | t' :: rest, t => if t'.id = t.id then t :: rest else t' :: insertLicenseTag rest t

/-- The tag-building loop of `Package.license_tags` (first access): one
`LicenseTag` per manifest `<license>` entry, collapsed by identifier. -/
def collect_license_tags (found_license_texts : Dict ScanResult) (raws : List RawLicense) :
    List LicenseTag :=
  raws.foldl (fun acc raw => insertLicenseTag acc (mkLicenseTag found_license_texts raw)) []

/-- The `Package.license_tags` property body (first access): build the tags
from the manifest entries, then run the two structural checks and the
single-tag identifier recovery.  `allFiles` is `_eval_glob("**")` and
`dir_listing` is `os.listdir` of the package root. -/
def build_license_tags (found_license_texts : Dict ScanResult) (allFiles : Finset String)
    (dir_listing : List String) (raws : List RawLicense) : Except PyError (List LicenseTag) := do
  let tags0 := collect_license_tags found_license_texts raws
  let tags1 ← check_single_license_tag_without_source_files allFiles tags0
  let tags2 ← check_single_license_tag_without_file_attribute found_license_texts dir_listing tags1
  return check_for_single_tag_without_file found_license_texts tags2

/-! ## Scan memoization (`package.py`) -/

/-- The two memoized scan-result fields of a `Package`; `none` is the
constructor's `None` ("not yet evaluated"). -/
structure PkgScanState : Type where
  _found_files_w_licenses : Option (Dict ScanResult)
  _found_license_texts : Option (Dict ScanResult)
deriving DecidableEq

/-- The partition loop of `Package._run_scan_and_save_results`: files whose
scan result passes `get_spdx_license_name` (truthy) are license texts, the
rest keep their license information. -/
def scanPartition (walk : Dict ScanResult) : Dict ScanResult × Dict ScanResult :=
  walk.foldl
    (fun acc p =>
      if optTruthy (get_spdx_license_name p.2) then (acc.1, dictInsert acc.2 p.1 p.2)
      else (dictInsert acc.1 p.1 p.2, acc.2))
    ([], [])

/-- `Package._run_scan_and_save_results`.  `walk` is the ignore-filtered
`os.walk` of the package together with each file's scanner output (the
scanner is the external oracle), and `repo_texts` the parent repo's license
text files (keys already relative to the package), `none` when there is no
repo.  Returns the new state and whether the scan body actually ran. -/
def run_scan_and_save_results (walk : Dict ScanResult) (repo_texts : Option (Dict ScanResult))
    (s : PkgScanState) : PkgScanState × Bool :=
  if s._found_files_w_licenses.isSome ∧ s._found_license_texts.isSome then
    (s, false)
  else
    let part := scanPartition walk
    let texts :=
      match repo_texts with
      | some rt => rt.foldl (fun acc p => dictInsert acc p.1 p.2) part.2
      | none => part.2
    ({ _found_files_w_licenses := some part.1, _found_license_texts := some texts }, true)

/-- The `Package.found_files_w_licenses` property: scan on first access,
then return the memoized dict.  Returns (value, new state, whether the scan
body ran). -/
def pkg_found_files_w_licenses (walk : Dict ScanResult) (repo_texts : Option (Dict ScanResult))
    (s : PkgScanState) : Dict ScanResult × PkgScanState × Bool :=
  if s._found_files_w_licenses = none then
    let (s', ran) := run_scan_and_save_results walk repo_texts s
    (s'._found_files_w_licenses.getD [], s', ran)
  else
    (s._found_files_w_licenses.getD [], s, false)

/-- The `Package.found_license_texts` property, as
`pkg_found_files_w_licenses`. -/
def pkg_found_license_texts (walk : Dict ScanResult) (repo_texts : Option (Dict ScanResult))
    (s : PkgScanState) : Dict ScanResult × PkgScanState × Bool :=
  if s._found_license_texts = none then
    let (s', ran) := run_scan_and_save_results walk repo_texts s
    (s'._found_license_texts.getD [], s', ran)
  else
    (s._found_license_texts.getD [], s, false)

/-! ## The check base class (`checks.py`) -/

/-- `NO_REASON_STR` from `ui_elements.py`. -/
def NO_REASON_STR : String := "No reason provided."

/-- The observable outcome of one check: its `status` and `reason` fields. -/
structure CheckResult : Type where
  status : Status
  reason : String
deriving DecidableEq, Repr

/-- `Check._failed` applied to a fresh check instance. -/
def mk_failed (reason : String) : CheckResult := ⟨.FAILURE, reason⟩

/-- `Check._warning` applied to a fresh check instance. -/
def mk_warning (reason : String) : CheckResult := ⟨.WARNING, reason⟩

/-- `Check._success` applied to a fresh check instance: the initial reason is
`NO_REASON_STR`, so it is replaced by `""` and the new reason appended. -/
def mk_success (reason : String) : CheckResult := ⟨.SUCCESS, reason⟩

/-- `Check.check`, the check-execution boundary: `PackageException` and
`AssertionError` are caught and turned into a `FAILURE` with the exception
text; any other exception propagates (and would abort the run). -/
def check_boundary (r : Except PyError CheckResult) : Except PyError CheckResult :=
  match r with
  | .ok res => .ok res
  | .error (.packageException m) => .ok ⟨.FAILURE, "PackageException: " ++ m⟩
  | .error (.assertionError m) => .ok ⟨.FAILURE, "AssertionError: " ++ m⟩
  | .error e => .error e

/-! ## The package model as read by the checks -/

/-- The parts of a `Package` that the checks read, after `license_tags` has
been built successfully: the license tags (the values of the dict, whose
keys are the tags' identifiers), the two scan-result dicts, the set of
relative paths that exist on disk (`os.path.exists(os.path.join(abspath, ·))`),
and the package's absolute path split into components. -/
structure PackageModel : Type where
  license_tags : List LicenseTag
  found_license_texts : Dict ScanResult
  found_files_w_licenses : Dict ScanResult
  existing_paths : List String
  abspath_components : List String

/-- Dict lookup in `package.license_tags` by identifier (keys are unique). -/
def findTag (tags : List LicenseTag) (license_str : String) : Option LicenseTag :=
  tags.find? (fun t => t.id = license_str)

/-- Python `repr` of a string (no escaping; identifiers and paths here
contain no quotes). -/
def pyQuote (s : String) : String := "'" ++ s ++ "'"

/-- `", ".join(map(repr, l))`. -/
def pyListReprInner : List String → String
  | [] => ""
  | [x] => pyQuote x
  | x :: y :: xs => pyQuote x ++ ", " ++ pyListReprInner (y :: xs)

/-- Python `repr` of a list of strings, as interpolated by f-strings. -/
def pyListRepr (l : List String) : String := "[" ++ pyListReprInner l ++ "]"

/-! ## `LicenseTagExistsCheck` (`license_checks/license_tag_exists_check.py`) -/

/-- `LicenseTagExistsCheck._check`. -/
def license_tag_exists_check (pkg : PackageModel) : CheckResult :=
  if pkg.license_tags.length = 0 then
    mk_failed "No license tag defined."
  else
    mk_success ("Found licenses " ++ pyListRepr (pkg.license_tags.map (fun t => t.id)))

/-! ## `LicenseTagIsInSpdxListCheck` (`license_checks/license_tag_is_spdx.py`) -/

/-- `LicenseTagIsInSpdxListCheck._check`: the loop over
`package.license_tags.keys()` collects the identifiers missing from the
SPDX vocabulary. -/
def license_tag_is_in_spdx_list_check (spdx_list : List String) (pkg : PackageModel) :
    CheckResult :=
  let licenses_not_in_spdx_list :=
    (pkg.license_tags.map (fun t => t.id)).filter
      (fun k => ! is_license_name_in_spdx_list spdx_list k)
  if 0 < licenses_not_in_spdx_list.length then
    mk_warning ("Licenses " ++ pyListRepr licenses_not_in_spdx_list
      ++ " are not in SPDX list of licenses. "
      ++ "Make sure to exactly match one of https://spdx.org/licenses/.")
  else
    mk_success "All license tags are in SPDX list of licenses."

/-! ## `LicenseTextExistsCheck` (`license_checks/license_text_exists_check.py`) -/

/-- The external inputs of `LicenseTextExistsCheck`: the SPDX vocabulary,
the reference-text provider (`requests.get` of
`https://spdx.org/licenses/{tag}.json` plus the on-disk cache; `none` models
a failed fetch), and the contents of files on disk (`open(...).read()`,
keyed by package-relative path). -/
structure TextCheckCtx : Type where
  spdx_list : List String
  fetched_reference_text : String → Option String
  file_contents : String → String

/-- `LicenseTextExistsCheck.compare_text_with_spdx_text`: `none` when the
reference text could not be obtained, else the similarity percentage; the
error is the uncaught `ZeroDivisionError` of `get_similarity_percent`. -/
def compare_text_with_spdx_text (ctx : TextCheckCtx) (tag : String) (found_lic_text : String) :
    Except PyError (Option ℚ) :=
  match ctx.fetched_reference_text tag with
  | none => .ok none
  | some original_text =>
    match get_similarity_percent original_text found_lic_text with
    | none => .error .zeroDivisionError
    | some q => .ok (some q)

/-- The per-declaration outcome of `LicenseTextExistsCheck._check_licenses`:
the entries written for one tag (message, status, and the optional
`files_with_wrong_tags` record). -/
structure TagTextOutcome : Type where
  msg : String
  status : Status
  wrong_tag : Option (String × String)
deriving DecidableEq, Repr

/-- The loop body of `LicenseTextExistsCheck._check_licenses` for one tag:
conditions (in order): no text file; file does not exist; file not in the
scan results; scan result not recognized as license text; recovered
identifier differs from the declared one — in which case the similarity
fall-back runs and, if it does not accept, the outcome is `FAILURE` when the
declared identifier is in the SPDX list and `WARNING` otherwise.  `none`
means the tag triggered nothing (per-declaration success). -/
def check_one_license_tag (ctx : TextCheckCtx) (pkg : PackageModel) (t : LicenseTag) :
    Except PyError (Option TagTextOutcome) := do
  match t.license_text_file with
  | none => return some ⟨"No license text file defined.", .FAILURE, none⟩
  | some license_text_file =>
    if license_text_file ∉ pkg.existing_paths then
      return some ⟨"License text file '" ++ license_text_file ++ "' does not exist.",
        .FAILURE, none⟩
    else if ¬ dictHasKey pkg.found_license_texts license_text_file then
      return some ⟨"License text file '" ++ license_text_file
        ++ "' not included in scan results.", .FAILURE, none⟩
    else
      match dictLookup pkg.found_license_texts license_text_file with
      | none => return none  -- unreachable: the key is present
      | some res =>
        if ¬ optTruthy (get_spdx_license_name res) then
          return some ⟨"License text file '" ++ license_text_file
            ++ "' is not recognized as license text.", .FAILURE, none⟩
        else
          match get_spdx_license_name res with
          | none =>  -- unreachable: guarded by the truthiness test above
            return some ⟨"License text file '" ++ license_text_file
              ++ "' is not recognized as license text.", .FAILURE, none⟩
          | some actual_license =>
            if actual_license ≠ t.id then
              let content := ctx.file_contents license_text_file
              let similarity_of_texts ← compare_text_with_spdx_text ctx t.id content
              match similarity_of_texts with
              | none =>
                return some ⟨"License text file '" ++ license_text_file ++ "' is of license "
                    ++ actual_license ++ " but tag is " ++ t.id ++ ".",
                  (if is_license_name_in_spdx_list ctx.spdx_list t.id then .FAILURE
                   else .WARNING),
                  some (actual_license, t.id)⟩
              | some q =>
                if q < SIMILARITY_THRESHOLD then
                  return some ⟨"License text file '" ++ license_text_file ++ "' is of license "
                      ++ actual_license ++ " but tag is " ++ t.id ++ ".",
                    (if is_license_name_in_spdx_list ctx.spdx_list t.id then .FAILURE
                     else .WARNING),
                    some (actual_license, t.id)⟩
                else
                  return none
            else
              return none

/-- The three record dicts of `LicenseTextExistsCheck`, keyed by the tag
(tags are unique per identifier, so the identifier is the key). -/
structure LTECState : Type where
  license_tags_without_license_text : Dict String
  missing_license_texts_status : Dict Status
  files_with_wrong_tags : Dict (String × String)
deriving DecidableEq, Repr

/-- Record one triggered tag in the check's dicts. -/
def ltec_add (st : LTECState) (tagId : String) (o : TagTextOutcome) : LTECState :=
  { license_tags_without_license_text :=
      dictInsert st.license_tags_without_license_text tagId o.msg
    missing_license_texts_status :=
      dictInsert st.missing_license_texts_status tagId o.status
    files_with_wrong_tags :=
      match o.wrong_tag with
      | some wt => dictInsert st.files_with_wrong_tags tagId wt
      | none => st.files_with_wrong_tags }

/-- One iteration of the loop of `LicenseTextExistsCheck._check_licenses`. -/
def ltec_step (ctx : TextCheckCtx) (pkg : PackageModel) (st : LTECState) (t : LicenseTag) :
    Except PyError LTECState := do
  match ← check_one_license_tag ctx pkg t with
  | some o => return ltec_add st t.id o
  | none => return st

/-- `LicenseTextExistsCheck._check_licenses`. -/
def ltec_check_licenses (ctx : TextCheckCtx) (pkg : PackageModel) :
    Except PyError LTECState :=
  pkg.license_tags.foldlM (ltec_step ctx pkg) ⟨[], [], []⟩

/-- `f"  '{x[0]}': {x[1]}"` over the items of a string-valued dict. -/
def tagMsgLine (p : String × String) : String := "  '" ++ p.1 ++ "': " ++ p.2

/-- `LicenseTextExistsCheck._evaluate_results`. -/
def ltec_evaluate_results (st : LTECState) : CheckResult :=
  if 0 < st.license_tags_without_license_text.length then
    if pyMaxStatus (st.missing_license_texts_status.map Prod.snd) = some .WARNING then
      mk_warning ("Since they are not in the SPDX list, we can not check if these tags have the"
        ++ " correct license text:\n"
        ++ String.intercalate "\n" (st.license_tags_without_license_text.map tagMsgLine))
    else
      mk_failed ("The following license tags do not have a valid license text file:\n"
        ++ String.intercalate "\n" (st.license_tags_without_license_text.map tagMsgLine))
  else
    mk_success "All license tags have a valid license text file."

/-- `LicenseTextExistsCheck._check`. -/
def license_text_exists_check (ctx : TextCheckCtx) (pkg : PackageModel) :
    Except PyError CheckResult := do
  if pkg.license_tags.length = 0 then
    return mk_failed "No license tag defined."
  else
    let st ← ltec_check_licenses ctx pkg
    return ltec_evaluate_results st

/-! ## `LicensesInCodeCheck` (`license_checks/license_in_code_check.py`) -/

/-- `Package.get_license_files`: the text files of all license tags; the
`assert` inside `get_license_text_file` fires when a tag has none. -/
def get_license_files (tags : List LicenseTag) : Except PyError (List String) :=
  tags.mapM (fun t =>
    match t.license_text_file with
    | some f => Except.ok f
    | none => Except.error (.assertionError "License tag must have file attribute."))

/-- The `inofficial_licenses` dict comprehension (in both
`LicensesInCodeCheck._check_license_files` and
`LicenseFilesReferencedCheck._handle_inofficial_licenses`): map
`id_from_license_text` (skipping the empty string, later tags overwriting
earlier ones) to the declaring tag's key, then look up `license_str`. -/
def unofficial_licenses_lookup (tags : List LicenseTag) (license_str : String) : Option String :=
  (tags.filter (fun t => t.id_from_license_text ≠ some "")).foldl
    (fun acc t => if t.id_from_license_text = some license_str then some t.id else acc) none

/-- The three record dicts of `LicensesInCodeCheck`. -/
structure ICCState : Type where
  files_with_uncovered_licenses : Dict (List String)
  files_not_matched_by_any_license_tag : Dict (List String)
  files_with_unofficial_tag : Dict (List String)
deriving DecidableEq, Repr

/-- `if fname not in d: d[fname] = []` followed by `d[fname].append(v)`. -/
def dictAppendAt (d : Dict (List String)) (k : String) (v : String) : Dict (List String) :=
  match dictLookup d k with
  | some l => dictInsert d k (l ++ [v])
  | none => d ++ [(k, [v])]

/-- The inner loop body of `LicensesInCodeCheck._check_license_files` for
one conjunct `license_str` of one file `fname`. -/
def icc_process_conjunct (tags : List LicenseTag) (fname : String) (st : ICCState)
    (license_str : String) : Except PyError ICCState :=
  match findTag tags license_str with
  | none =>
    match unofficial_licenses_lookup tags license_str with
    | some key =>
      .ok { st with files_with_unofficial_tag :=
        dictAppendAt (dictAppendAt st.files_with_unofficial_tag fname license_str) fname key }
    | none =>
      .ok { st with files_with_uncovered_licenses :=
        dictAppendAt st.files_with_uncovered_licenses fname license_str }
  | some t =>
    match t.source_files with
    | none => .error (.assertionError "License tag must have source-files attribute.")
    | some sf =>
      if fname ∈ sf then .ok st
      else
        .ok { st with files_not_matched_by_any_license_tag :=
          dictAppendAt st.files_not_matched_by_any_license_tag fname license_str }

/-- The outer loop body of `LicensesInCodeCheck._check_license_files` for one
scanned file: skip declared license-text files and files with an empty
detected expression, else split the expression on `" AND "` and process each
conjunct. -/
def icc_process_file (tags : List LicenseTag) (license_files : List String) (st : ICCState)
    (p : String × ScanResult) : Except PyError ICCState :=
  if p.1 ∈ license_files then .ok st
  else
    let found_licenses_str := p.2.detected_license_expression_spdx
    if found_licenses_str = "" then .ok st
    else (found_licenses_str.splitOn " AND ").foldlM (icc_process_conjunct tags p.1) st

/-- `LicensesInCodeCheck._check_license_files`. -/
def icc_check_license_files (tags : List LicenseTag) (license_files : List String)
    (found_files_w_licenses : Dict ScanResult) : Except PyError ICCState :=
  found_files_w_licenses.foldlM (icc_process_file tags license_files) ⟨[], [], []⟩

/-- `f"  '{x[0]}': {x[1]}"` where `x[1]` is a list of strings. -/
def fileListLine (p : String × List String) : String :=
  "  '" ++ p.1 ++ "': " ++ pyListRepr p.2

/-- `LicensesInCodeCheck._evaluate_result` (including `_print_info`, which
sets the check failed with the given reason). -/
def icc_evaluate_result (st : ICCState) : CheckResult :=
  if st.files_with_uncovered_licenses ≠ [] then
    mk_failed ("\nThe following files contain licenses that are not covered by any license tag:\n"
      ++ String.intercalate "\n" (st.files_with_uncovered_licenses.map fileListLine))
  else if st.files_with_unofficial_tag ≠ [] then
    mk_warning ("For the following files, please change the License Tag in the package file"
      ++ " to SPDX format:\n"
      ++ String.intercalate "\n" (st.files_with_unofficial_tag.map (fun x =>
        "  '" ++ x.1 ++ "' is of " ++ (x.2.head?.getD "") ++ " but its Tag is "
          ++ ((x.2.drop 1).head?.getD "") ++ ".")))
  else if 0 < st.files_not_matched_by_any_license_tag.length then
    mk_failed ("\nThe following files contain licenses that are covered by a license tag"
      ++ " but are not listed in the source files of the license tag:\n"
      ++ String.intercalate "\n" (st.files_not_matched_by_any_license_tag.map fileListLine))
  else
    mk_success "All licenses found in the code are covered by a license declaration."

/-- `LicensesInCodeCheck._check`. -/
def licenses_in_code_check (pkg : PackageModel) : Except PyError CheckResult := do
  if pkg.license_tags.length = 0 then
    return mk_failed "No license tag defined."
  else
    let license_files ← get_license_files pkg.license_tags
    let st ← icc_check_license_files pkg.license_tags license_files pkg.found_files_w_licenses
    return icc_evaluate_result st

/-! ## `LicenseFilesReferencedCheck`
(`license_checks/license_file_referenced_check.py`) -/

/-- Normalization of an absolute path's components, as performed by
`os.path.abspath`: drop empty and `"."` parts and resolve `".."`. -/
def normalizeComponents (cs : List String) : List String :=
  cs.foldl
    (fun acc c =>
      if c = "" ∨ c = "." then acc
      else if c = ".." then acc.dropLast
      else acc ++ [c])
    []

/-- `is_in_package`: `os.path.commonpath([parent]) ==
os.path.commonpath([parent, child])` for `child = abspath(parent + "/" +
file)`, i.e. the normalized child path still starts with the package path. -/
def is_in_package (abspath_components : List String) (file : String) : Bool :=
  decide (abspath_components <+: normalizeComponents (abspath_components ++ file.splitOn "/"))

/-- The two record dicts of `LicenseFilesReferencedCheck`. -/
structure LFRState : Type where
  not_covered_texts : Dict String
  inofficial_covered_texts : Dict (List String)
deriving DecidableEq, Repr

/-- `LicenseFilesReferencedCheck._handle_inofficial_licenses` for one
license-text file.  The scan result always carries the
`detected_license_expression_spdx` key (cf. `ScanResult`), so the guard
reduces to the identifier not being declared by any tag. -/
def lfr_handle_inofficial_licenses (tags : List LicenseTag) (st : LFRState)
    (filename : String) (license_text : ScanResult) : LFRState :=
  let spdx_expression := license_text.detected_license_expression_spdx
  if (findTag tags spdx_expression).isSome then st
  else
    match unofficial_licenses_lookup tags spdx_expression with
    | some key =>
      { st with inofficial_covered_texts :=
          dictInsert st.inofficial_covered_texts filename [spdx_expression, key] }
    | none =>
      { st with not_covered_texts := dictInsert st.not_covered_texts filename spdx_expression }

/-- `LicenseFilesReferencedCheck._evaluate_results`. -/
def lfr_evaluate_results (st : LFRState) : CheckResult :=
  if st.not_covered_texts ≠ [] then
    mk_failed ("The following license files are not mentioned by any tag:\n"
      ++ String.intercalate "\n" (st.not_covered_texts.map (fun x =>
        "  '" ++ x.1 ++ "' is of " ++ x.2 ++ ".")))
  else if st.inofficial_covered_texts ≠ [] then
    mk_warning ("The following license files are not mentioned by any tag:\n"
      ++ String.intercalate "\n" (st.inofficial_covered_texts.map (fun x =>
        "  '" ++ x.1 ++ "' is of " ++ (x.2.head?.getD "") ++ " but its tag is "
          ++ ((x.2.drop 1).head?.getD "") ++ ".")))
  else
    mk_success "All license declaration are referenced by a tag."

/-- `LicenseFilesReferencedCheck._check`: license texts above the package
are skipped; the rest must be referenced by a tag, directly or through an
unofficial-tag correspondence. -/
def license_files_referenced_check (pkg : PackageModel) : CheckResult :=
  let st := pkg.found_license_texts.foldl
    (fun st p =>
      if ¬ is_in_package pkg.abspath_components p.1 then st
      else lfr_handle_inofficial_licenses pkg.license_tags st p.1 p.2)
    ⟨[], []⟩
  lfr_evaluate_results st

/-! ## Verdict aggregation (`main.py`) -/

/-- `os.EX_OK`. -/
def EX_OK : Nat := 0

/-- `os.EX_DATAERR`. -/
def EX_DATAERR : Nat := 65

/-- The aggregation at the end of `process_one_pkg`: the package status is
decided by the `if`/`elif`/`else` on the maximum of the check statuses
(`none` models the `ValueError` of `max` on an empty sequence, which cannot
occur since the check list is a fixed list of six checks). -/
def process_one_pkg_status (check_statuses : List Status) : Option Status :=
  match pyMaxStatus check_statuses with
  | none => none
  | some m =>
    if m = .SUCCESS then some .SUCCESS
    else if m = .WARNING then some .WARNING
    else some .FAILURE

/-- `print_results`: maps the maximum severity over all package statuses to
the process exit code, honoring `--warnings_as_error` and
`--continue_on_error`. -/
def print_results (result_values : List Status) (warnings_as_error continue_on_error : Bool) :
    Option Nat :=
  match pyMaxStatus result_values with
  | none => none
  | some m =>
    if m = .SUCCESS then some EX_OK
    else if m = .WARNING then
      (if warnings_as_error then some EX_DATAERR else some EX_OK)
    else
      (if continue_on_error then some EX_OK else some EX_DATAERR)

/-- The specification-side exit-code mapping, as a function of the run's
maximum severity alone. -/
def exit_for_run_status (m : Status) (warnings_as_error continue_on_error : Bool) : Nat :=
  match m with
  | .SUCCESS => EX_OK
  | .WARNING => if warnings_as_error then EX_DATAERR else EX_OK
  | .FAILURE => if continue_on_error then EX_OK else EX_DATAERR

/-! ## Specification-side predicates

These definitions restate, declaratively, the record-producing conditions
of `LicensesInCodeCheck._check_license_files` (spec §4.7), to be proved
equivalent to what the imperative loops accumulate. -/

/-- A detected conjunct matches no declaration and no unofficial-tag
correspondence. -/
def conjunct_uncovered (tags : List LicenseTag) (c : String) : Bool :=
  (findTag tags c).isNone && (unofficial_licenses_lookup tags c).isNone

/-- A detected conjunct matches no declaration but does match an identifier
recovered from some declaration's license text. -/
def conjunct_unofficial (tags : List LicenseTag) (c : String) : Bool :=
  (findTag tags c).isNone && (unofficial_licenses_lookup tags c).isSome

/-- A detected conjunct matches a declaration, but the file is not in that
declaration's owned file set. -/
def conjunct_not_attributed (tags : List LicenseTag) (fname c : String) : Bool :=
  match findTag tags c with
  | some t =>
    match t.source_files with
    | some sf => decide (fname ∉ sf)
    | none => false
  | none => false

/-- A scanned file is relevant for the code-licenses check: it is not one of
the declared license-text files and its detected expression is nonempty. -/
def relevant_code_file (license_files : List String) (p : String × ScanResult) : Bool :=
  decide (p.1 ∉ license_files) && (p.2.detected_license_expression_spdx ≠ "")

/-- Some relevant file has an uncovered conjunct (after splitting on
`" AND "`). -/
def has_uncovered_license (tags : List LicenseTag) (license_files : List String)
    (files : Dict ScanResult) : Bool :=
  files.any (fun p => relevant_code_file license_files p &&
    (p.2.detected_license_expression_spdx.splitOn " AND ").any (conjunct_uncovered tags))

/-- Some relevant file has an unofficial-tag conjunct. -/
def has_unofficial_tag_record (tags : List LicenseTag) (license_files : List String)
    (files : Dict ScanResult) : Bool :=
  files.any (fun p => relevant_code_file license_files p &&
    (p.2.detected_license_expression_spdx.splitOn " AND ").any (conjunct_unofficial tags))

/-- Some relevant file has a declared-but-not-attributed conjunct. -/
def has_not_attributed_record (tags : List LicenseTag) (license_files : List String)
    (files : Dict ScanResult) : Bool :=
  files.any (fun p => relevant_code_file license_files p &&
    (p.2.detected_license_expression_spdx.splitOn " AND ").any
      (conjunct_not_attributed tags p.1))

/-- Union of the owned file sets of a list of declarations (spec side). -/
def unionSourceFiles (l : List LicenseTag) : Finset String :=
  l.foldr (fun o acc => o.source_files.getD ∅ ∪ acc) ∅

/-! # Theorems

Bounds for the similarity helper -/


lemma levenshtein_nil_right {α : Type} [DecidableEq α] (xs : List α) :
    levenshtein Levenshtein.defaultCost xs [] = xs.length := by
  induction xs with
  | nil => simp
  | cons x xs ih => simp [ih, Nat.add_comm]

lemma levenshtein_nil_left {α : Type} [DecidableEq α] (ys : List α) :
    levenshtein Levenshtein.defaultCost [] ys = ys.length := by
  induction ys with
  | nil => simp
  | cons y ys ih => simp [ih, Nat.add_comm]

/-- The Levenshtein distance (unit costs) is at most the longer length. -/
lemma levenshtein_le_max_length {α : Type} [DecidableEq α] (xs ys : List α) :
    levenshtein Levenshtein.defaultCost xs ys ≤ max xs.length ys.length := by
  induction xs generalizing ys with
  | nil => simp [levenshtein_nil_left]
  | cons x xs ihx =>
    induction ys with
    | nil => simp [levenshtein_nil_right, Nat.add_comm]
    | cons y ys ihy =>
      have hsub : levenshtein Levenshtein.defaultCost (x :: xs) (y :: ys) ≤
          (if x = y then 0 else 1) + levenshtein Levenshtein.defaultCost xs ys := by
        rw [levenshtein_cons_cons]
        refine le_trans (min_le_right _ _) (le_trans (min_le_right _ _) ?_)
        simp [Levenshtein.defaultCost]
      refine le_trans hsub ?_
      have h := ihx ys
      by_cases hxy : x = y
      · simp only [if_pos hxy, zero_add]
        calc levenshtein Levenshtein.defaultCost xs ys ≤ max xs.length ys.length := h
          _ ≤ max (x :: xs).length (y :: ys).length := by
              simp only [List.length_cons]; omega
      · simp only [if_neg hxy]
        simp only [List.length_cons]
        omega

lemma roundHalfToEven_nonneg {q : ℚ} (h : 0 ≤ q) : 0 ≤ roundHalfToEven q := by
  have hfl : (0 : ℤ) ≤ ⌊q⌋ := Int.floor_nonneg.mpr h
  unfold roundHalfToEven
  dsimp only
  split
  · exact hfl
  · split
    · omega
    · split <;> omega

lemma roundHalfToEven_le {q : ℚ} {m : ℤ} (h : q ≤ m) : roundHalfToEven q ≤ m := by
  have hfl : ⌊q⌋ ≤ m := by
    have := Int.floor_le_floor h
    simpa using this
  have hq : (⌊q⌋ : ℚ) ≤ q := Int.floor_le q
  unfold roundHalfToEven
  dsimp only
  have hsucc : ¬ (q - ⌊q⌋ < 1 / 2) → ⌊q⌋ + 1 ≤ m := by
    intro hr
    push_neg at hr
    have h1 : (⌊q⌋ : ℚ) + 1 / 2 ≤ q := by linarith
    have h2 : (⌊q⌋ : ℚ) < m := by
      have : (⌊q⌋ : ℚ) + 1 / 2 ≤ (m : ℚ) := le_trans h1 h
      linarith
    exact_mod_cast Int.add_one_le_of_lt (by exact_mod_cast h2)
  split
  · exact hfl
  · next hr =>
    split
    · exact hsucc hr
    · split
      · exact hfl
      · exact hsucc hr

lemma pythonRound2_bounds {q : ℚ} (h0 : 0 ≤ q) (h100 : q ≤ 100) :
    0 ≤ pythonRound2 q ∧ pythonRound2 q ≤ 100 := by
  unfold pythonRound2
  have hlo : 0 ≤ roundHalfToEven (100 * q) := roundHalfToEven_nonneg (by linarith)
  have hhi : roundHalfToEven (100 * q) ≤ (10000 : ℤ) := by
    apply roundHalfToEven_le
    push_cast
    linarith
  constructor
  · positivity
  · rw [div_le_iff₀ (by norm_num)]
    calc ((roundHalfToEven (100 * q) : ℚ)) ≤ (10000 : ℤ) := by exact_mod_cast hhi
      _ = 100 * 100 := by norm_num


lemma string_length_pos {s : String} (h : s ≠ "") : 0 < s.length := by
  cases s with
  | mk data =>
    cases data with
    | nil => simp at h
    | cons c cs => simp [String.length]

/-- Claim C10: `get_similarity_percent` is partial — for every pair of texts
of which at least one is non-empty it returns a value between 0 and 100
(Levenshtein distance regularized by the longer length), but when both
texts are empty it divides by zero (`none`, the `ZeroDivisionError`). -/
theorem similarity_percent_partial_and_bounded :
    (∀ text1 text2 : String, text1 ≠ "" ∨ text2 ≠ "" →
      ∃ q, get_similarity_percent text1 text2 = some q ∧ 0 ≤ q ∧ q ≤ 100) ∧
    get_similarity_percent "" "" = none := by
  constructor
  · intro t1 t2 h
    have hb : 0 < max t1.length t2.length := by
      rcases h with h | h
      · exact lt_of_lt_of_le (string_length_pos h) (le_max_left _ _)
      · exact lt_of_lt_of_le (string_length_pos h) (le_max_right _ _)
    have hlev : levenshtein Levenshtein.defaultCost t1.data t2.data
        ≤ max t1.length t2.length := by
      have := levenshtein_le_max_length t1.data t2.data
      simpa [String.length_data] using this
    have hbq : (0 : ℚ) < ((max t1.length t2.length : ℕ) : ℚ) := by exact_mod_cast hb
    have hlq : ((levenshtein Levenshtein.defaultCost t1.data t2.data : ℕ) : ℚ)
        ≤ ((max t1.length t2.length : ℕ) : ℚ) := by exact_mod_cast hlev
    have h0 : 0 ≤ 100 * (((max t1.length t2.length : ℕ) : ℚ)
        - (levenshtein Levenshtein.defaultCost t1.data t2.data : ℕ))
        / ((max t1.length t2.length : ℕ) : ℚ) := by
      apply div_nonneg _ (le_of_lt hbq)
      nlinarith
    have h100 : 100 * (((max t1.length t2.length : ℕ) : ℚ)
        - (levenshtein Levenshtein.defaultCost t1.data t2.data : ℕ))
        / ((max t1.length t2.length : ℕ) : ℚ) ≤ 100 := by
      rw [div_le_iff₀ hbq]
      have : (0 : ℚ) ≤ (levenshtein Levenshtein.defaultCost t1.data t2.data : ℕ) := by
        positivity
      nlinarith
    simp only [get_similarity_percent]
    rw [if_neg (by omega)]
    exact ⟨_, rfl, (pythonRound2_bounds h0 h100).1, (pythonRound2_bounds h0 h100).2⟩
  · rfl

/-- Witness for claim C10, at the pair `("spdx", "")`. -/
theorem similarity_percent_partial_and_bounded_witness :
    ∃ q, get_similarity_percent "spdx" "" = some q ∧ 0 ≤ q ∧ q ≤ 100 :=
  similarity_percent_partial_and_bounded.1 "spdx" "" (Or.inl (by decide))

/-! ### Scan memoization (claim C6) -/

lemma run_scan_fields_some (walk : Dict ScanResult) (repo_texts : Option (Dict ScanResult))
    (s : PkgScanState) :
    ((run_scan_and_save_results walk repo_texts s).1)._found_files_w_licenses.isSome = true ∧
    ((run_scan_and_save_results walk repo_texts s).1)._found_license_texts.isSome = true := by
  unfold run_scan_and_save_results
  split
  · next h => exact ⟨h.1, h.2⟩
  · simp

/-- Claim C6: the scan-and-save step is idempotent and memoized — after one
call to `_run_scan_and_save_results`, a second call does not rescan
(`false`) and leaves the state unchanged, and both scan-result accessors
return exactly the memoized dicts of that state, again without scanning; in
particular every repeated accessor call returns the identical mapping. -/
theorem scan_and_save_idempotent_memoized (walk : Dict ScanResult)
    (repo_texts : Option (Dict ScanResult)) (s : PkgScanState) :
    run_scan_and_save_results walk repo_texts (run_scan_and_save_results walk repo_texts s).1
      = ((run_scan_and_save_results walk repo_texts s).1, false) ∧
    pkg_found_files_w_licenses walk repo_texts (run_scan_and_save_results walk repo_texts s).1
      = (((run_scan_and_save_results walk repo_texts s).1)._found_files_w_licenses.getD [],
         (run_scan_and_save_results walk repo_texts s).1, false) ∧
    pkg_found_license_texts walk repo_texts (run_scan_and_save_results walk repo_texts s).1
      = (((run_scan_and_save_results walk repo_texts s).1)._found_license_texts.getD [],
         (run_scan_and_save_results walk repo_texts s).1, false) := by
  obtain ⟨h1, h2⟩ := run_scan_fields_some walk repo_texts s
  refine ⟨?_, ?_, ?_⟩
  · rw [run_scan_and_save_results]
    rw [if_pos ⟨h1, h2⟩]
  · rw [pkg_found_files_w_licenses]
    rw [if_neg (by simp [Option.isSome_iff_ne_none] at h1; exact h1)]
  · rw [pkg_found_license_texts]
    rw [if_neg (by simp [Option.isSome_iff_ne_none] at h2; exact h2)]

/-! ### Verdict aggregation (claim C8) -/

lemma max2_success_left (s : Status) : Status.max2 .SUCCESS s = s := by
  cases s <;> rfl

lemma pyMaxStatus_eq_maxStatus (l : List Status) (h : l ≠ []) :
    pyMaxStatus l = some (maxStatus l) := by
  match l with
  | [] => exact absurd rfl h
  | s :: rest =>
    simp [pyMaxStatus, maxStatus, max2_success_left]

/-- Claim C8: the package status computed at the end of `process_one_pkg`
equals the maximum severity over the verdicts of its checks, and the exit
classification of `print_results` is exactly the specification-side mapping
of the maximum severity over all package statuses. -/
theorem package_and_run_status_are_max_severity (check_statuses pkg_statuses : List Status)
    (warnings_as_error continue_on_error : Bool)
    (hc : check_statuses ≠ []) (hp : pkg_statuses ≠ []) :
    process_one_pkg_status check_statuses = some (maxStatus check_statuses) ∧
    print_results pkg_statuses warnings_as_error continue_on_error
      = some (exit_for_run_status (maxStatus pkg_statuses) warnings_as_error
          continue_on_error) := by
  constructor
  · rw [process_one_pkg_status, pyMaxStatus_eq_maxStatus _ hc]
    cases maxStatus check_statuses <;> simp
  · rw [print_results, pyMaxStatus_eq_maxStatus _ hp]
    cases maxStatus pkg_statuses <;>
      cases warnings_as_error <;> cases continue_on_error <;>
        simp [exit_for_run_status]

/-- Witness for claim C8: one package with checks
`[SUCCESS, WARNING, FAILURE]` and a run over statuses `[WARNING, SUCCESS]`. -/
theorem package_and_run_status_are_max_severity_witness :
    process_one_pkg_status [.SUCCESS, .WARNING, .FAILURE]
        = some (maxStatus [.SUCCESS, .WARNING, .FAILURE]) ∧
    print_results [.WARNING, .SUCCESS] false false
      = some (exit_for_run_status (maxStatus [.WARNING, .SUCCESS]) false false) :=
  package_and_run_status_are_max_severity _ _ false false (by decide) (by decide)

/-! ### The Tag-Is-Recognized check (claim C9) -/

lemma infix_extend_list {α : Type} {b d : List α} (x y : List α) (h : b <:+: d) :
    b <:+: x ++ d ++ y := by
  obtain ⟨s, t, hst⟩ := h
  exact ⟨x ++ s, t ++ y, by simp [← hst, List.append_assoc]⟩

lemma quote_infix_inner {x : String} {l : List String} (h : x ∈ l) :
    (pyQuote x).data <:+: (pyListReprInner l).data := by
  induction l with
  | nil => cases h
  | cons y ys ih =>
    cases ys with
    | nil =>
      rcases List.mem_singleton.mp h with rfl
      exact ⟨[], [], by simp [pyListReprInner]⟩
    | cons z zs =>
      rcases List.mem_cons.mp h with rfl | hmem
      · refine ⟨[], (", " ++ pyListReprInner (z :: zs)).data, ?_⟩
        simp [pyListReprInner, String.data_append]
      · have := ih hmem
        have hext := infix_extend_list (x := (pyQuote y ++ ", ").data) (y := ([] : List Char)) this
        simpa [pyListReprInner, String.data_append, List.append_assoc] using hext

lemma quote_infix_pyListRepr {x : String} {l : List String} (h : x ∈ l) :
    (pyQuote x).data <:+: (pyListRepr l).data := by
  have := infix_extend_list (x := "[".data) (y := "]".data) (quote_infix_inner h)
  simpa [pyListRepr, String.data_append, List.append_assoc] using this

lemma spdx_check_eval (spdx_list : List String) (pkg : PackageModel) :
    license_tag_is_in_spdx_list_check spdx_list pkg =
      (if ((pkg.license_tags.map (fun t => t.id)).filter
            (fun k => ! is_license_name_in_spdx_list spdx_list k)) = [] then
        mk_success "All license tags are in SPDX list of licenses."
      else
        mk_warning ("Licenses "
          ++ pyListRepr ((pkg.license_tags.map (fun t => t.id)).filter
              (fun k => ! is_license_name_in_spdx_list spdx_list k))
          ++ " are not in SPDX list of licenses. "
          ++ "Make sure to exactly match one of https://spdx.org/licenses/.")) := by
  rw [license_tag_is_in_spdx_list_check]
  cases hL : (pkg.license_tags.map (fun t => t.id)).filter
      (fun k => ! is_license_name_in_spdx_list spdx_list k) with
  | nil => simp [hL]
  | cons a as => simp [hL]

/-- Claim C9: the Tag-Is-Recognized check yields `WARNING` (never `FAILURE`)
whenever at least one declared identifier is not in the recognized
vocabulary, listing every offending identifier in its reason, and yields
`SUCCESS` when every declared identifier is recognized. -/
theorem tag_is_spdx_check_warns_and_lists (spdx_list : List String) (pkg : PackageModel) :
    (license_tag_is_in_spdx_list_check spdx_list pkg).status ≠ .FAILURE ∧
    ((∀ t ∈ pkg.license_tags, is_license_name_in_spdx_list spdx_list t.id = true) →
      (license_tag_is_in_spdx_list_check spdx_list pkg).status = .SUCCESS) ∧
    ((∃ t ∈ pkg.license_tags, is_license_name_in_spdx_list spdx_list t.id = false) →
      (license_tag_is_in_spdx_list_check spdx_list pkg).status = .WARNING) ∧
    (∀ t ∈ pkg.license_tags, is_license_name_in_spdx_list spdx_list t.id = false →
      pyStrIn (pyQuote t.id) (license_tag_is_in_spdx_list_check spdx_list pkg).reason = true) := by
  rw [spdx_check_eval]
  by_cases hL : ((pkg.license_tags.map (fun t => t.id)).filter
      (fun k => ! is_license_name_in_spdx_list spdx_list k)) = []
  · rw [if_pos hL]
    refine ⟨by simp [mk_success], fun _ => rfl, ?_, ?_⟩
    · rintro ⟨t, hmem, hfalse⟩
      have : t.id ∈ (pkg.license_tags.map (fun t => t.id)).filter
          (fun k => ! is_license_name_in_spdx_list spdx_list k) :=
        List.mem_filter.mpr ⟨List.mem_map_of_mem _ hmem, by simp [hfalse]⟩
      rw [hL] at this
      cases this
    · intro t hmem hfalse
      have : t.id ∈ (pkg.license_tags.map (fun t => t.id)).filter
          (fun k => ! is_license_name_in_spdx_list spdx_list k) :=
        List.mem_filter.mpr ⟨List.mem_map_of_mem _ hmem, by simp [hfalse]⟩
      rw [hL] at this
      cases this
  · rw [if_neg hL]
    refine ⟨by simp [mk_warning], ?_, fun _ => rfl, ?_⟩
    · intro hall
      exact absurd (List.filter_eq_nil_iff.mpr (by
        intro a ha
        rcases List.mem_map.mp ha with ⟨t, hmem, rfl⟩
        simp [hall t hmem])) hL
    · intro t hmem hfalse
      have hidmem : t.id ∈ (pkg.license_tags.map (fun t => t.id)).filter
          (fun k => ! is_license_name_in_spdx_list spdx_list k) :=
        List.mem_filter.mpr ⟨List.mem_map_of_mem _ hmem, by simp [hfalse]⟩
      have hinf := quote_infix_pyListRepr hidmem
      apply decide_eq_true
      show (pyQuote t.id).data <:+: _
      have hext := infix_extend_list (x := "Licenses ".data)
        (y := (" are not in SPDX list of licenses. "
          ++ "Make sure to exactly match one of https://spdx.org/licenses/.").data) hinf
      simpa [mk_warning, String.data_append, List.append_assoc] using hext

/-- Witness for claim C9: vocabulary `["MIT"]`, declared identifiers
`"MIT"` and `"BSD"`: warning, and `'BSD'` is listed in the reason. -/
theorem tag_is_spdx_check_warns_and_lists_witness :
    (license_tag_is_in_spdx_list_check ["MIT"]
        ⟨[⟨"MIT", none, none, none⟩, ⟨"BSD", none, none, none⟩], [], [], [], []⟩).status
      = .WARNING ∧
    pyStrIn (pyQuote "BSD") (license_tag_is_in_spdx_list_check ["MIT"]
        ⟨[⟨"MIT", none, none, none⟩, ⟨"BSD", none, none, none⟩], [], [], [], []⟩).reason
      = true :=
  ⟨(tag_is_spdx_check_warns_and_lists ["MIT"] _).2.2.1
      ⟨⟨"BSD", none, none, none⟩, by simp, by decide⟩,
    (tag_is_spdx_check_warns_and_lists ["MIT"] _).2.2.2 ⟨"BSD", none, none, none⟩
      (by simp) (by decide)⟩

/-! ### Zero-declaration packages (claim C5) -/

lemma lfr_handle_no_tags (st : LFRState) (f : String) (r : ScanResult) :
    lfr_handle_inofficial_licenses [] st f r =
      { st with not_covered_texts :=
          dictInsert st.not_covered_texts f r.detected_license_expression_spdx } := by
  simp [lfr_handle_inofficial_licenses, findTag, unofficial_licenses_lookup]

lemma lfr_fold_inofficial_nil (comp : List String) (l : Dict ScanResult) (st0 : LFRState)
    (h0 : st0.inofficial_covered_texts = []) :
    (l.foldl
      (fun st p =>
        if ¬ is_in_package comp p.1 then st
        else lfr_handle_inofficial_licenses [] st p.1 p.2)
      st0).inofficial_covered_texts = [] := by
  induction l generalizing st0 with
  | nil => exact h0
  | cons p rest ih =>
    simp only [List.foldl_cons]
    by_cases hp : is_in_package comp p.1
    · rw [if_neg (by simp [hp])]
      exact ih _ (by rw [lfr_handle_no_tags]; exact h0)
    · rw [if_pos (by simp [hp])]
      exact ih _ h0

/-- Claim C5: for every package that declares zero licenses, the
Tag-Existence check fails, and every other check runs to completion without
raising — the SPDX-vocabulary check succeeds vacuously, the text-exists and
in-code checks short-circuit to `FAILURE`, and the files-referenced check
ends in `FAILURE` or `SUCCESS` (never an exception). -/
theorem zero_licenses_tag_exists_fails_others_no_raise (ctx : TextCheckCtx)
    (spdx_list : List String) (pkg : PackageModel) (h : pkg.license_tags = []) :
    license_tag_exists_check pkg = mk_failed "No license tag defined." ∧
    (license_tag_is_in_spdx_list_check spdx_list pkg).status = .SUCCESS ∧
    license_text_exists_check ctx pkg = .ok (mk_failed "No license tag defined.") ∧
    licenses_in_code_check pkg = .ok (mk_failed "No license tag defined.") ∧
    ((license_files_referenced_check pkg).status = .FAILURE ∨
      (license_files_referenced_check pkg).status = .SUCCESS) := by
  refine ⟨?_, ?_, ?_, ?_, ?_⟩
  · simp [license_tag_exists_check, h]
  · rw [spdx_check_eval, h]
    simp [mk_success]
  · rw [license_text_exists_check, h]
    rfl
  · rw [licenses_in_code_check, h]
    rfl
  · rw [license_files_referenced_check, h]
    have hino := lfr_fold_inofficial_nil pkg.abspath_components pkg.found_license_texts
      ⟨[], []⟩ rfl
    rw [lfr_evaluate_results]
    by_cases hnc : (pkg.found_license_texts.foldl
        (fun st p =>
          if ¬ is_in_package pkg.abspath_components p.1 then st
          else lfr_handle_inofficial_licenses [] st p.1 p.2)
        ⟨[], []⟩).not_covered_texts = []
    · rw [if_neg (not_not_intro hnc), if_neg (not_not_intro hino)]
      right
      rfl
    · rw [if_pos hnc]
      left
      rfl

/-- Witness for claim C5: a package with one scanned license text and no
license tag. -/
theorem zero_licenses_tag_exists_fails_others_no_raise_witness :
    license_tag_exists_check ⟨[], [("LICENSE", ⟨95, "MIT"⟩)], [], [], ["pkg"]⟩
        = mk_failed "No license tag defined." ∧
    (license_tag_is_in_spdx_list_check ["MIT"]
        ⟨[], [("LICENSE", ⟨95, "MIT"⟩)], [], [], ["pkg"]⟩).status = .SUCCESS ∧
    license_text_exists_check ⟨["MIT"], fun _ => none, fun _ => ""⟩
        ⟨[], [("LICENSE", ⟨95, "MIT"⟩)], [], [], ["pkg"]⟩
      = .ok (mk_failed "No license tag defined.") ∧
    licenses_in_code_check ⟨[], [("LICENSE", ⟨95, "MIT"⟩)], [], [], ["pkg"]⟩
      = .ok (mk_failed "No license tag defined.") ∧
    ((license_files_referenced_check
        ⟨[], [("LICENSE", ⟨95, "MIT"⟩)], [], [], ["pkg"]⟩).status = .FAILURE ∨
      (license_files_referenced_check
        ⟨[], [("LICENSE", ⟨95, "MIT"⟩)], [], [], ["pkg"]⟩).status = .SUCCESS) :=
  zero_licenses_tag_exists_fails_others_no_raise ⟨["MIT"], fun _ => none, fun _ => ""⟩
    ["MIT"] ⟨[], [("LICENSE", ⟨95, "MIT"⟩)], [], [], ["pkg"]⟩ rfl

/-! ### Structural manifest violations (claim C4) -/

lemma except_bind_ok {A B : Type} (a : A) (f : A → Except PyError B) :
    (Except.ok a >>= f : Except PyError B) = f a := rfl

lemma except_bind_error {A B : Type} (e : PyError) (f : A → Except PyError B) :
    (Except.error e >>= f : Except PyError B) = Except.error e := rfl

lemma set_main_filter_no_file (allFiles : Finset String) (seen l : List LicenseTag) :
    ((set_main_license allFiles seen l).filter (fun t => ! t.has_license_text_file)).length
      = (l.filter (fun t => ! t.has_license_text_file)).length := by
  induction l generalizing seen with
  | nil => rfl
  | cons t rest ih =>
    rw [set_main_license]
    by_cases hs : t.has_source_files
    · rw [if_pos hs]
      by_cases hf : t.has_license_text_file <;>
        simp [List.filter_cons, hf, ih]
    · rw [if_neg hs]
      have : LicenseTag.has_license_text_file
          { t with source_files := some (make_main_source_files allFiles (seen ++ rest)) }
            = t.has_license_text_file := rfl
      by_cases hf : t.has_license_text_file <;>
        simp [List.filter_cons, hf, this]

/-- Claim C4: a manifest whose (collapsed) declaration set has two or more
declarations without a `source-files` attribute, or two or more without a
`file` attribute, makes the declaration-set construction raise a
`PackageException`; the check-execution boundary catches it and rewrites it
into a `FAILURE` verdict whose reason carries the exception text, for any
check that accesses the declaration set. -/
theorem manifest_structural_violation_fails_check (found : Dict ScanResult)
    (allFiles : Finset String) (dir_listing : List String) (raws : List RawLicense)
    (h : 2 ≤ ((collect_license_tags found raws).filter
          (fun t => ! t.has_source_files)).length
       ∨ 2 ≤ ((collect_license_tags found raws).filter
          (fun t => ! t.has_license_text_file)).length) :
    ∃ msg, build_license_tags found allFiles dir_listing raws
        = .error (.packageException msg) ∧
      ∀ use_tags : List LicenseTag → Except PyError CheckResult,
        check_boundary ((build_license_tags found allFiles dir_listing raws).bind use_tags)
          = .ok ⟨.FAILURE, "PackageException: " ++ msg⟩ := by
  by_cases hs : 1 < ((collect_license_tags found raws).filter
      (fun t => ! t.has_source_files)).length
  · refine ⟨"There must be at most one license tag without source-files.", ?_⟩
    have hb : build_license_tags found allFiles dir_listing raws
        = .error (.packageException
            "There must be at most one license tag without source-files.") := by
      simp only [build_license_tags, check_single_license_tag_without_source_files,
        if_pos hs]
      rfl
    exact ⟨hb, fun use_tags => by rw [hb]; rfl⟩
  · have hf2 : 2 ≤ ((collect_license_tags found raws).filter
        (fun t => ! t.has_license_text_file)).length := by
      rcases h with h | h
      · omega
      · exact h
    refine ⟨"There must be at most one license tag without a license text file.", ?_⟩
    have hb : build_license_tags found allFiles dir_listing raws
        = .error (.packageException
            "There must be at most one license tag without a license text file.") := by
      have hcnt := set_main_filter_no_file allFiles [] (collect_license_tags found raws)
      simp only [build_license_tags, check_single_license_tag_without_source_files,
        if_neg hs, except_bind_ok]
      rw [check_single_license_tag_without_file_attribute, if_pos (by omega :
        1 < ((set_main_license allFiles [] (collect_license_tags found raws)).filter
          (fun t => ! t.has_license_text_file)).length)]
      rfl
    exact ⟨hb, fun use_tags => by rw [hb]; rfl⟩

/-- Witness for claim C4: two declarations, both without `source-files`. -/
theorem manifest_structural_violation_fails_check_witness :
    ∃ msg, build_license_tags [] (∅ : Finset String) []
        [⟨"MIT", some "LICENSE", none⟩, ⟨"BSD", none, none⟩]
        = .error (.packageException msg) ∧
      ∀ use_tags : List LicenseTag → Except PyError CheckResult,
        check_boundary ((build_license_tags [] (∅ : Finset String) []
            [⟨"MIT", some "LICENSE", none⟩, ⟨"BSD", none, none⟩]).bind use_tags)
          = .ok ⟨.FAILURE, "PackageException: " ++ msg⟩ :=
  manifest_structural_violation_fails_check [] ∅ []
    [⟨"MIT", some "LICENSE", none⟩, ⟨"BSD", none, none⟩] (Or.inl (by decide))

/-! ### Ownership inference of the main license (claim C3) -/

lemma make_main_eq_sdiff (allFiles : Finset String) (l : List LicenseTag) :
    make_main_source_files allFiles l = allFiles \ unionSourceFiles l := by
  induction l generalizing allFiles with
  | nil => simp [make_main_source_files, unionSourceFiles]
  | cons o rest ih =>
    have hstep : make_main_source_files allFiles (o :: rest)
        = make_main_source_files (allFiles \ o.source_files.getD ∅) rest := rfl
    rw [hstep, ih]
    have hu : unionSourceFiles (o :: rest)
        = o.source_files.getD ∅ ∪ unionSourceFiles rest := rfl
    rw [hu]
    ext x
    simp [Finset.mem_sdiff, Finset.mem_union]
    tauto

lemma mem_subset_unionSourceFiles {o : LicenseTag} {l : List LicenseTag} (h : o ∈ l) :
    o.source_files.getD ∅ ⊆ unionSourceFiles l := by
  induction l with
  | nil => cases h
  | cons p rest ih =>
    have hu : unionSourceFiles (p :: rest)
        = p.source_files.getD ∅ ∪ unionSourceFiles rest := rfl
    rw [hu]
    rcases List.mem_cons.mp h with rfl | hmem
    · exact Finset.subset_union_left
    · exact (ih hmem).trans Finset.subset_union_right

lemma unionSourceFiles_subset {l : List LicenseTag} {allFiles : Finset String}
    (h : ∀ o ∈ l, o.source_files.getD ∅ ⊆ allFiles) :
    unionSourceFiles l ⊆ allFiles := by
  induction l with
  | nil => simp [unionSourceFiles]
  | cons p rest ih =>
    have hu : unionSourceFiles (p :: rest)
        = p.source_files.getD ∅ ∪ unionSourceFiles rest := rfl
    rw [hu]
    exact Finset.union_subset (h p (by simp))
      (ih (fun o ho => h o (List.mem_cons_of_mem _ ho)))

lemma set_main_split (allFiles : Finset String) (seen pre post : List LicenseTag)
    (t : LicenseTag) (hpre : ∀ o ∈ pre, o.has_source_files = true)
    (ht : t.has_source_files = false) :
    set_main_license allFiles seen (pre ++ t :: post)
      = pre ++
          t.withSourceFiles (make_main_source_files allFiles (seen ++ pre ++ post))
            :: post := by
  induction pre generalizing seen with
  | nil =>
    rw [List.nil_append, set_main_license, if_neg (by simp [ht])]
    simp [LicenseTag.withSourceFiles]
  | cons p pre' ih =>
    rw [List.cons_append, set_main_license, if_pos (hpre p (by simp))]
    rw [ih (seen ++ [p]) (fun o ho => hpre o (List.mem_cons_of_mem _ ho))]
    simp

/-- Claim C3 (amended): if exactly one declaration lacks an owned-file set,
ownership inference resolves it to the full file set minus the union of all
other declarations' file sets; that resolved set is disjoint from every
other declaration's set, and — provided every other declaration's set is
contained in the package's file set — its union with the others equals the
full file set.  (The other declarations' sets need not be pairwise
disjoint; see the counterexample.) -/
theorem main_license_partition_amended (allFiles : Finset String)
    (pre post : List LicenseTag) (t : LicenseTag)
    (hpre : ∀ o ∈ pre, o.has_source_files = true)
    (hpost : ∀ o ∈ post, o.has_source_files = true)
    (ht : t.has_source_files = false) :
    ∃ S : Finset String,
      check_single_license_tag_without_source_files allFiles (pre ++ t :: post)
        = .ok (pre ++ { t with source_files := some S } :: post) ∧
      S = allFiles \ unionSourceFiles (pre ++ post) ∧
      (∀ o ∈ pre ++ post, Disjoint S (o.source_files.getD ∅)) ∧
      ((∀ o ∈ pre ++ post, o.source_files.getD ∅ ⊆ allFiles) →
        S ∪ unionSourceFiles (pre ++ post) = allFiles) := by
  have hfilter : (pre ++ t :: post).filter (fun x => ! x.has_source_files) = [t] := by
    rw [List.filter_append, List.filter_cons]
    have h1 : pre.filter (fun x => ! x.has_source_files) = [] :=
      List.filter_eq_nil_iff.mpr (fun a ha => by simp [hpre a ha])
    have h2 : post.filter (fun x => ! x.has_source_files) = [] :=
      List.filter_eq_nil_iff.mpr (fun a ha => by simp [hpost a ha])
    simp [h1, h2, ht]
  refine ⟨make_main_source_files allFiles (pre ++ post), ?_, ?_, ?_, ?_⟩
  · rw [check_single_license_tag_without_source_files, hfilter]
    rw [if_neg (by simp)]
    rw [set_main_split allFiles [] pre post t hpre ht]
    simp [LicenseTag.withSourceFiles]
  · exact make_main_eq_sdiff _ _
  · intro o ho
    rw [make_main_eq_sdiff]
    exact Finset.sdiff_disjoint.mono_right (mem_subset_unionSourceFiles ho)
  · intro hsub
    rw [make_main_eq_sdiff, Finset.sdiff_union_self_eq_union]
    exact Finset.union_eq_left.mpr (unionSourceFiles_subset hsub)

/-- Witness for claim C3 (amended): one explicit declaration owning
`{"a"}`, one catch-all declaration, full file set `{"a", "b"}`. -/
theorem main_license_partition_amended_witness :
    ∃ S : Finset String,
      check_single_license_tag_without_source_files ({"a", "b"} : Finset String)
          [⟨"L1", none, none, some {"a"}⟩, ⟨"L3", none, none, none⟩]
        = .ok [⟨"L1", none, none, some {"a"}⟩, ⟨"L3", none, none, some S⟩] ∧
      S = ({"a", "b"} : Finset String)
          \ unionSourceFiles [⟨"L1", none, none, some {"a"}⟩] ∧
      (∀ o ∈ [(⟨"L1", none, none, some {"a"}⟩ : LicenseTag)],
        Disjoint S (o.source_files.getD ∅)) ∧
      ((∀ o ∈ [(⟨"L1", none, none, some {"a"}⟩ : LicenseTag)],
          o.source_files.getD ∅ ⊆ ({"a", "b"} : Finset String)) →
        S ∪ unionSourceFiles [⟨"L1", none, none, some {"a"}⟩]
          = ({"a", "b"} : Finset String)) :=
  main_license_partition_amended {"a", "b"} [⟨"L1", none, none, some {"a"}⟩] []
    ⟨"L3", none, none, none⟩
    (fun o ho => by rcases List.mem_singleton.mp ho with rfl; rfl)
    (fun o ho => by cases ho) rfl

/-- Counterexample to claim C3 as stated: two explicit declarations may own
overlapping file sets, and ownership inference keeps them unchanged; the
declaration set after inference is then not pairwise disjoint (here the
declarations `L1` and `L2` both own file `"a"`), refuting the pairwise
disjointness asserted by the claim. -/
theorem main_license_partition_counterexample :
    check_single_license_tag_without_source_files ({"a", "b"} : Finset String)
        [⟨"L1", none, none, some {"a"}⟩, ⟨"L2", none, none, some {"a"}⟩,
          ⟨"L3", none, none, none⟩]
      = .ok [⟨"L1", none, none, some {"a"}⟩, ⟨"L2", none, none, some {"a"}⟩,
          ⟨"L3", none, none, some {"b"}⟩] ∧
    (⟨"L1", none, none, some {"a"}⟩ : LicenseTag) ≠ ⟨"L2", none, none, some {"a"}⟩ ∧
    ¬ Disjoint (({"a"} : Finset String)) (({"a"} : Finset String)) := by
  refine ⟨by decide, by decide, ?_⟩
  rw [Finset.not_disjoint_iff]
  exact ⟨"a", by decide, by decide⟩

/-! ### Text-file inference (claim C7) -/

lemma set_inferred_split (found : Dict ScanResult) (listing : List String)
    (pre post : List LicenseTag) (t : LicenseTag)
    (hpre : ∀ o ∈ pre, o.has_license_text_file = true)
    (ht : t.has_license_text_file = false) :
    set_inferred_text_file found listing (pre ++ t :: post)
      = pre ++ infer_license_text_file found listing t :: post := by
  induction pre with
  | nil =>
    rw [List.nil_append, set_inferred_text_file, if_neg (by simp [ht])]
    rfl
  | cons p pre' ih =>
    rw [List.cons_append, set_inferred_text_file, if_pos (hpre p (by simp))]
    rw [ih (fun o ho => hpre o (List.mem_cons_of_mem _ ho))]
    rfl

lemma infer_license_text_file_spec (found : Dict ScanResult) (listing : List String)
    (t : LicenseTag) (ht : t.license_text_file = none) :
    (infer_license_text_file found listing t).id = t.id ∧
    (infer_license_text_file found listing t).id_from_license_text
      = t.id_from_license_text ∧
    (infer_license_text_file found listing t).source_files = t.source_files ∧
    (infer_license_text_file found listing t).license_text_file =
      (match listing.filter (fun f => pyStrIn "LICENSE" f || pyStrIn "COPYING" f) with
       | [f] => some f
       | _ =>
         match found with
         | [(k, _)] => some k
         | _ => (found.map Prod.fst).find? (fun k => pyStrIn "LICENSE" k)) := by
  cases hpot : listing.filter (fun f => pyStrIn "LICENSE" f || pyStrIn "COPYING" f) with
  | cons f fs =>
    cases fs with
    | nil =>
      cases hfound : found with
      | nil => simp [infer_license_text_file, hpot, hfound, ht]
      | cons kv rest =>
        cases rest with
        | nil =>
          cases kv with
          | mk k v => simp [infer_license_text_file, hpot, hfound, ht]
        | cons kv2 rest2 =>
          cases hfind : List.find? (fun k => pyStrIn "LICENSE" k)
              (kv.1 :: kv2.1 :: rest2.map Prod.fst) with
          | none => simp [infer_license_text_file, hpot, hfound, hfind, ht]
          | some k => simp [infer_license_text_file, hpot, hfound, hfind, ht]
    | cons g gs =>
      cases hfound : found with
      | nil => simp [infer_license_text_file, hpot, hfound, ht]
      | cons kv rest =>
        cases rest with
        | nil =>
          cases kv with
          | mk k v => simp [infer_license_text_file, hpot, hfound, ht]
        | cons kv2 rest2 =>
          cases hfind : List.find? (fun k => pyStrIn "LICENSE" k)
              (kv.1 :: kv2.1 :: rest2.map Prod.fst) with
          | none => simp [infer_license_text_file, hpot, hfound, hfind, ht]
          | some k => simp [infer_license_text_file, hpot, hfound, hfind, ht]
  | nil =>
    cases hfound : found with
    | nil => simp [infer_license_text_file, hpot, hfound, ht]
    | cons kv rest =>
      cases rest with
      | nil =>
        cases kv with
        | mk k v => simp [infer_license_text_file, hpot, hfound, ht]
      | cons kv2 rest2 =>
        cases hfind : List.find? (fun k => pyStrIn "LICENSE" k)
            (kv.1 :: kv2.1 :: rest2.map Prod.fst) with
        | none => simp [infer_license_text_file, hpot, hfound, hfind, ht]
        | some k => simp [infer_license_text_file, hpot, hfound, hfind, ht]

/-- Claim C7 (amended): for the declaration with no linked text file, the
resolved link is decided with the following priority — if the package root
directory listing contains exactly one name containing `"LICENSE"` or
`"COPYING"`, that name is linked (overriding the content-based inference);
otherwise, if exactly one license-text file was detected by content, that
file is linked; otherwise the first detected text file whose path contains
the case-sensitive marker `"LICENSE"` is linked; otherwise the link is left
unresolved.  All other fields of the declaration are unchanged. -/
theorem text_file_inference_amended (found : Dict ScanResult) (listing : List String)
    (pre post : List LicenseTag) (t : LicenseTag)
    (hpre : ∀ o ∈ pre, o.has_license_text_file = true)
    (hpost : ∀ o ∈ post, o.has_license_text_file = true)
    (ht : t.has_license_text_file = false) :
    ∃ t', check_single_license_tag_without_file_attribute found listing (pre ++ t :: post)
        = .ok (pre ++ t' :: post) ∧
      t'.id = t.id ∧ t'.id_from_license_text = t.id_from_license_text ∧
      t'.source_files = t.source_files ∧
      t'.license_text_file =
        (match listing.filter (fun f => pyStrIn "LICENSE" f || pyStrIn "COPYING" f) with
         | [f] => some f
         | _ =>
           match found with
           | [(k, _)] => some k
           | _ => (found.map Prod.fst).find? (fun k => pyStrIn "LICENSE" k)) := by
  have htn : t.license_text_file = none := by
    cases hlt : t.license_text_file with
    | none => rfl
    | some f => simp [LicenseTag.has_license_text_file, hlt] at ht
  have hfilter : (pre ++ t :: post).filter (fun x => ! x.has_license_text_file) = [t] := by
    rw [List.filter_append, List.filter_cons]
    have h1 : pre.filter (fun x => ! x.has_license_text_file) = [] :=
      List.filter_eq_nil_iff.mpr (fun a ha => by simp [hpre a ha])
    have h2 : post.filter (fun x => ! x.has_license_text_file) = [] :=
      List.filter_eq_nil_iff.mpr (fun a ha => by simp [hpost a ha])
    simp [h1, h2, ht]
  obtain ⟨hid, holder, hsf, hltf⟩ := infer_license_text_file_spec found listing t htn
  refine ⟨infer_license_text_file found listing t, ?_, hid, holder, hsf, hltf⟩
  rw [check_single_license_tag_without_file_attribute, hfilter]
  rw [if_neg (by simp)]
  rw [set_inferred_split found listing pre post t hpre ht]

/-- Witness for claim C7 (amended): no detected license texts, a root
listing with the single name `"COPYING"`. -/
theorem text_file_inference_amended_witness :
    ∃ t', check_single_license_tag_without_file_attribute [] ["COPYING"]
        [(⟨"MIT", none, none, none⟩ : LicenseTag)]
        = .ok [t'] ∧
      t'.id = (⟨"MIT", none, none, none⟩ : LicenseTag).id ∧
      t'.id_from_license_text
        = (⟨"MIT", none, none, none⟩ : LicenseTag).id_from_license_text ∧
      t'.source_files = (⟨"MIT", none, none, none⟩ : LicenseTag).source_files ∧
      t'.license_text_file =
        (match ["COPYING"].filter (fun f => pyStrIn "LICENSE" f || pyStrIn "COPYING" f) with
         | [f] => some f
         | _ =>
           match ([] : Dict ScanResult) with
           | [(k, _)] => some k
           | _ => (([] : Dict ScanResult).map Prod.fst).find?
               (fun k => pyStrIn "LICENSE" k)) :=
  text_file_inference_amended [] ["COPYING"] [] [] ⟨"MIT", none, none, none⟩
    (fun o ho => by cases ho) (fun o ho => by cases ho) rfl

/-- Counterexample to claim C7 as stated: with no detected license-text file
at all (so the claim demands the link stay unresolved), the code still links
a file — the root directory listing contains exactly one name containing
`"COPYING"`, and that name is linked. -/
theorem text_file_inference_counterexample :
    check_single_license_tag_without_file_attribute [] ["COPYING"]
        [(⟨"MIT", none, none, none⟩ : LicenseTag)]
      = .ok [(⟨"MIT", none, some "COPYING", none⟩ : LicenseTag)] ∧
    (⟨"MIT", none, some "COPYING", none⟩ : LicenseTag).license_text_file ≠ none := by
  exact ⟨by decide, by decide⟩

/-! ### License-Text-Exists mismatch resolution (claim C1) -/

lemma except_pure_eq {A : Type} (a : A) : (pure a : Except PyError A) = .ok a := rfl

lemma dictLookup_dictInsert_self {A : Type} (d : Dict A) (k : String) (v : A) :
    dictLookup (dictInsert d k v) k = some v := by
  induction d with
  | nil => simp [dictInsert, dictLookup]
  | cons p rest ih =>
    by_cases hk : p.1 = k <;>
      simp [dictInsert, dictLookup, hk, ih]

lemma dictLookup_dictInsert_ne {A : Type} (d : Dict A) (k k' : String) (v : A)
    (h : k' ≠ k) : dictLookup (dictInsert d k v) k' = dictLookup d k' := by
  induction d with
  | nil =>
    simp only [dictInsert, dictLookup]
    rw [if_neg (Ne.symm h)]
  | cons p rest ih =>
    by_cases hk : p.1 = k
    · simp only [dictInsert, if_pos hk, dictLookup]
      rw [if_neg (Ne.symm h), hk, if_neg (Ne.symm h)]
    · simp only [dictInsert, if_neg hk, dictLookup]
      rw [ih]

lemma ltec_add_lookup_ne (st : LTECState) (tagId idv : String) (o : TagTextOutcome)
    (h : idv ≠ tagId) :
    dictLookup (ltec_add st tagId o).missing_license_texts_status idv
        = dictLookup st.missing_license_texts_status idv ∧
    dictLookup (ltec_add st tagId o).files_with_wrong_tags idv
        = dictLookup st.files_with_wrong_tags idv := by
  cases hw : o.wrong_tag <;>
    simp [ltec_add, hw, dictLookup_dictInsert_ne _ _ _ _ h]

lemma ltec_step_cases (ctx : TextCheckCtx) (pkg : PackageModel) (st : LTECState)
    (t : LicenseTag) (s' : LTECState) (h : ltec_step ctx pkg st t = .ok s') :
    s' = st ∨ ∃ o, check_one_license_tag ctx pkg t = .ok (some o) ∧ s' = ltec_add st t.id o := by
  rw [ltec_step] at h
  cases hc : check_one_license_tag ctx pkg t with
  | error e => rw [hc] at h; simp [except_bind_error] at h
  | ok r =>
    rw [hc, except_bind_ok] at h
    cases r with
    | none =>
      simp only [except_pure_eq, Except.ok.injEq] at h
      exact Or.inl h.symm
    | some o =>
      simp only [except_pure_eq, Except.ok.injEq] at h
      exact Or.inr ⟨o, rfl, h.symm⟩

lemma ltec_fold_frame (ctx : TextCheckCtx) (pkg : PackageModel) (l : List LicenseTag)
    (idv : String) (hid : idv ∉ l.map (fun x => x.id)) :
    ∀ s st : LTECState, l.foldlM (ltec_step ctx pkg) s = .ok st →
      dictLookup st.missing_license_texts_status idv
          = dictLookup s.missing_license_texts_status idv ∧
      dictLookup st.files_with_wrong_tags idv = dictLookup s.files_with_wrong_tags idv := by
  induction l with
  | nil =>
    intro s st h
    simp only [List.foldlM_nil, except_pure_eq, Except.ok.injEq] at h
    rw [← h]
    exact ⟨rfl, rfl⟩
  | cons x rest ih =>
    intro s st h
    have hidx : idv ≠ x.id := by
      intro he
      exact hid (by simp [he])
    have hidr : idv ∉ rest.map (fun x => x.id) := by
      intro he
      exact hid (by simp [he])
    rw [List.foldlM_cons] at h
    cases hstep : ltec_step ctx pkg s x with
    | error e => rw [hstep] at h; simp [except_bind_error] at h
    | ok s1 =>
      rw [hstep, except_bind_ok] at h
      obtain ⟨h1, h2⟩ := ih hidr s1 st h
      rcases ltec_step_cases ctx pkg s x s1 hstep with rfl | ⟨o, _, rfl⟩
      · exact ⟨h1, h2⟩
      · obtain ⟨h3, h4⟩ := ltec_add_lookup_ne s x.id idv o hidx
        exact ⟨h1.trans h3, h2.trans h4⟩

lemma ltec_fold_lookup (ctx : TextCheckCtx) (pkg : PackageModel) (l : List LicenseTag)
    (t : LicenseTag) (o : TagTextOutcome) (hmem : t ∈ l)
    (hnodup : (l.map (fun x => x.id)).Nodup)
    (hone : check_one_license_tag ctx pkg t = .ok (some o)) :
    ∀ s st : LTECState, l.foldlM (ltec_step ctx pkg) s = .ok st →
      dictLookup st.missing_license_texts_status t.id = some o.status ∧
      (∀ wt, o.wrong_tag = some wt → dictLookup st.files_with_wrong_tags t.id = some wt) := by
  induction l with
  | nil => cases hmem
  | cons x rest ih =>
    intro s st h
    rw [List.foldlM_cons] at h
    cases hstep : ltec_step ctx pkg s x with
    | error e => rw [hstep] at h; simp [except_bind_error] at h
    | ok s1 =>
      rw [hstep, except_bind_ok] at h
      rcases List.mem_cons.mp hmem with rfl | hmemr
      · have hs1 : s1 = ltec_add s t.id o := by
          rw [ltec_step, hone, except_bind_ok] at hstep
          simp only [except_pure_eq, Except.ok.injEq] at hstep
          exact hstep.symm
        have hidr : t.id ∉ rest.map (fun x => x.id) := by
          have := hnodup
          simp only [List.map_cons, List.nodup_cons] at this
          exact this.1
        obtain ⟨h1, h2⟩ := ltec_fold_frame ctx pkg rest t.id hidr s1 st h
        subst hs1
        constructor
        · rw [h1]
          simp [ltec_add, dictLookup_dictInsert_self]
        · intro wt hwt
          rw [h2]
          simp [ltec_add, hwt, dictLookup_dictInsert_self]
      · have hnodup' : (rest.map (fun x => x.id)).Nodup := by
          have := hnodup
          simp only [List.map_cons, List.nodup_cons] at this
          exact this.2
        exact ih hmemr hnodup' s1 st h

lemma check_one_tag_mismatch (ctx : TextCheckCtx) (pkg : PackageModel) (t : LicenseTag)
    (f : String) (hf : t.license_text_file = some f)
    (hex : f ∈ pkg.existing_paths)
    (res : ScanResult) (hres : dictLookup pkg.found_license_texts f = some res)
    (actual : String) (hact : get_spdx_license_name res = some actual) (hne : actual ≠ "")
    (hdiff : actual ≠ t.id)
    (hsim : compare_text_with_spdx_text ctx t.id (ctx.file_contents f) = .ok none
      ∨ ∃ q, compare_text_with_spdx_text ctx t.id (ctx.file_contents f) = .ok (some q)
          ∧ q < SIMILARITY_THRESHOLD) :
    check_one_license_tag ctx pkg t = .ok (some
      ⟨"License text file '" ++ f ++ "' is of license " ++ actual ++ " but tag is "
          ++ t.id ++ ".",
        (if is_license_name_in_spdx_list ctx.spdx_list t.id then .FAILURE else .WARNING),
        some (actual, t.id)⟩) := by
  have hkey : dictHasKey pkg.found_license_texts f = true := by
    simp [dictHasKey, hres]
  have htruthy : optTruthy (some actual) = true := by
    simp [optTruthy, hne]
  rcases hsim with hsim | ⟨q, hsim, hlt⟩
  · simp [check_one_license_tag, hf, hex, hkey, hres, htruthy, hact, hdiff, hsim,
      except_bind_ok, except_pure_eq]
  · simp [check_one_license_tag, hf, hex, hkey, hres, htruthy, hact, hdiff, hsim,
      except_bind_ok, except_pure_eq, hlt, if_pos]

/-- Claim C1 (amended): in the License-Text-Exists check, for every
declaration whose linked text file exists, is in the scan results, and scans
to a recovered identifier different from the declared identifier, *and for
which the similarity fall-back does not accept* (the SPDX reference text is
unavailable, or the similarity of the file's text with it is below the 90 %
threshold): if the declared identifier is in the recognized SPDX vocabulary
the per-declaration outcome is `FAILURE`, otherwise it is downgraded to
`WARNING`; in both cases the (recovered, declared) pair is recorded for
unofficial-tag reporting. -/
theorem text_exists_mismatch_outcome_amended (ctx : TextCheckCtx) (pkg : PackageModel)
    (t : LicenseTag) (hmem : t ∈ pkg.license_tags)
    (hnodup : (pkg.license_tags.map (fun x => x.id)).Nodup)
    (f : String) (hf : t.license_text_file = some f)
    (hex : f ∈ pkg.existing_paths)
    (res : ScanResult) (hres : dictLookup pkg.found_license_texts f = some res)
    (actual : String) (hact : get_spdx_license_name res = some actual) (hne : actual ≠ "")
    (hdiff : actual ≠ t.id)
    (hsim : compare_text_with_spdx_text ctx t.id (ctx.file_contents f) = .ok none
      ∨ ∃ q, compare_text_with_spdx_text ctx t.id (ctx.file_contents f) = .ok (some q)
          ∧ q < SIMILARITY_THRESHOLD) :
    ∀ st, ltec_check_licenses ctx pkg = .ok st →
      dictLookup st.missing_license_texts_status t.id
        = some (if is_license_name_in_spdx_list ctx.spdx_list t.id then Status.FAILURE
            else Status.WARNING) ∧
      dictLookup st.files_with_wrong_tags t.id = some (actual, t.id) := by
  intro st hst
  have hone := check_one_tag_mismatch ctx pkg t f hf hex res hres actual hact hne hdiff hsim
  have := ltec_fold_lookup ctx pkg pkg.license_tags t _ hmem hnodup hone ⟨[], [], []⟩ st hst
  exact ⟨this.1, this.2 (actual, t.id) rfl⟩

/-- Witness for claim C1 (amended): declared `MIT`, linked file scans as
`Apache-2.0`, reference text unavailable — outcome `FAILURE` with the pair
recorded. -/
theorem text_exists_mismatch_outcome_amended_witness :
    dictLookup (LTECState.mk
        [("MIT", "License text file 'LICENSE' is of license Apache-2.0 but tag is MIT.")]
        [("MIT", Status.FAILURE)]
        [("MIT", ("Apache-2.0", "MIT"))]).missing_license_texts_status "MIT"
      = some (if is_license_name_in_spdx_list ["MIT", "Apache-2.0"] "MIT"
          then Status.FAILURE else Status.WARNING) ∧
    dictLookup (LTECState.mk
        [("MIT", "License text file 'LICENSE' is of license Apache-2.0 but tag is MIT.")]
        [("MIT", Status.FAILURE)]
        [("MIT", ("Apache-2.0", "MIT"))]).files_with_wrong_tags "MIT"
      = some ("Apache-2.0", "MIT") := by
  have hone := check_one_tag_mismatch
    ⟨["MIT", "Apache-2.0"], fun _ => none, fun _ => ""⟩
    ⟨[⟨"MIT", none, some "LICENSE", none⟩], [("LICENSE", ⟨95, "Apache-2.0"⟩)],
      [], ["LICENSE"], ["pkg"]⟩
    ⟨"MIT", none, some "LICENSE", none⟩ "LICENSE" rfl (by simp)
    ⟨95, "Apache-2.0"⟩ rfl "Apache-2.0" rfl (by decide) (by decide) (Or.inl rfl)
  have hrun : ltec_check_licenses
      ⟨["MIT", "Apache-2.0"], fun _ => none, fun _ => ""⟩
      ⟨[⟨"MIT", none, some "LICENSE", none⟩], [("LICENSE", ⟨95, "Apache-2.0"⟩)],
        [], ["LICENSE"], ["pkg"]⟩
      = .ok (LTECState.mk
        [("MIT", "License text file 'LICENSE' is of license Apache-2.0 but tag is MIT.")]
        [("MIT", Status.FAILURE)]
        [("MIT", ("Apache-2.0", "MIT"))]) := by
    rw [ltec_check_licenses]
    simp only [List.foldlM_cons, List.foldlM_nil, ltec_step, hone, except_bind_ok,
      except_pure_eq]
    rfl
  exact text_exists_mismatch_outcome_amended
    ⟨["MIT", "Apache-2.0"], fun _ => none, fun _ => ""⟩
    ⟨[⟨"MIT", none, some "LICENSE", none⟩], [("LICENSE", ⟨95, "Apache-2.0"⟩)],
      [], ["LICENSE"], ["pkg"]⟩
    ⟨"MIT", none, some "LICENSE", none⟩ (by simp) (by simp)
    "LICENSE" rfl (by simp) ⟨95, "Apache-2.0"⟩ (by rfl)
    "Apache-2.0" (by rfl) (by decide) (by decide) (Or.inl rfl) _ hrun

lemma levenshtein_self {α : Type} [DecidableEq α] (xs : List α) :
    levenshtein Levenshtein.defaultCost xs xs = 0 := by
  induction xs with
  | nil => simp
  | cons x xs ih =>
    apply Nat.eq_zero_of_le_zero
    rw [levenshtein_cons_cons]
    refine le_trans (min_le_right _ _) (le_trans (min_le_right _ _) ?_)
    simp [ih]

lemma roundHalfToEven_intCast (n : ℤ) : roundHalfToEven (n : ℚ) = n := by
  unfold roundHalfToEven
  simp only [Int.floor_intCast]
  norm_num

lemma pythonRound2_hundred : pythonRound2 (100 : ℚ) = 100 := by
  rw [pythonRound2]
  have h : (100 : ℚ) * 100 = ((10000 : ℤ) : ℚ) := by norm_num
  rw [h, roundHalfToEven_intCast]
  norm_num

lemma get_similarity_percent_self (s : String) (h : s ≠ "") :
    get_similarity_percent s s = some 100 := by
  have hlev : levenshtein Levenshtein.defaultCost s.data s.data = 0 := levenshtein_self _
  have hb : 0 < s.length := string_length_pos h
  have hbq : ((s.length : ℕ) : ℚ) ≠ 0 := by
    exact_mod_cast hb.ne'
  simp only [get_similarity_percent, hlev, max_self]
  rw [if_neg (by omega)]
  have hval : 100 * (((s.length : ℕ) : ℚ) - ((0 : ℕ) : ℚ)) / ((s.length : ℕ) : ℚ)
      = 100 := by
    push_cast
    field_simp
  rw [hval, pythonRound2_hundred]

lemma check_one_tag_mismatch_accepted (ctx : TextCheckCtx) (pkg : PackageModel)
    (t : LicenseTag) (f : String) (hf : t.license_text_file = some f)
    (hex : f ∈ pkg.existing_paths)
    (res : ScanResult) (hres : dictLookup pkg.found_license_texts f = some res)
    (actual : String) (hact : get_spdx_license_name res = some actual) (hne : actual ≠ "")
    (hdiff : actual ≠ t.id)
    (q : ℚ) (hsim : compare_text_with_spdx_text ctx t.id (ctx.file_contents f)
      = .ok (some q))
    (hge : ¬ q < SIMILARITY_THRESHOLD) :
    check_one_license_tag ctx pkg t = .ok none := by
  have hkey : dictHasKey pkg.found_license_texts f = true := by
    simp [dictHasKey, hres]
  have htruthy : optTruthy (some actual) = true := by
    simp [optTruthy, hne]
  simp [check_one_license_tag, hf, hex, hkey, hres, htruthy, hact, hdiff, hsim,
    except_bind_ok, except_pure_eq, hge]

/-- Counterexample to claim C1 as stated: declared `MIT` (recognized),
linked file scans as `Apache-2.0` (a genuine mismatch under the claim, which
demands a `FAILURE` outcome), but the similarity fall-back accepts — the
reference text equals the file's text, similarity 100 % — so the check
records no outcome at all for the declaration. -/
theorem text_exists_mismatch_outcome_counterexample :
    ltec_check_licenses
        ⟨["MIT", "Apache-2.0"], fun _ => some "0123456789", fun _ => "0123456789"⟩
        ⟨[⟨"MIT", none, some "LICENSE", none⟩], [("LICENSE", ⟨95, "Apache-2.0"⟩)],
          [], ["LICENSE"], ["pkg"]⟩
      = .ok ⟨[], [], []⟩ ∧
    get_spdx_license_name ⟨95, "Apache-2.0"⟩ = some "Apache-2.0" ∧
    "Apache-2.0" ≠ "MIT" ∧
    is_license_name_in_spdx_list ["MIT", "Apache-2.0"] "MIT" = true := by
  refine ⟨?_, by rfl, by decide, by rfl⟩
  have hone : check_one_license_tag
      ⟨["MIT", "Apache-2.0"], fun _ => some "0123456789", fun _ => "0123456789"⟩
      ⟨[⟨"MIT", none, some "LICENSE", none⟩], [("LICENSE", ⟨95, "Apache-2.0"⟩)],
        [], ["LICENSE"], ["pkg"]⟩
      ⟨"MIT", none, some "LICENSE", none⟩ = .ok none := by
    apply check_one_tag_mismatch_accepted _ _ _ "LICENSE" rfl (by simp)
      ⟨95, "Apache-2.0"⟩ (by rfl) "Apache-2.0" (by rfl) (by decide) (by decide) 100
    · simp [compare_text_with_spdx_text, get_similarity_percent_self]
    · norm_num [SIMILARITY_THRESHOLD]
  rw [ltec_check_licenses]
  simp [List.foldlM_cons, List.foldlM_nil, ltec_step, hone, except_bind_ok, except_pure_eq]

/-! ### Code-Licenses-Covered aggregation (claim C2) -/

lemma dictAppendAt_ne_nil (d : Dict (List String)) (k v : String) :
    dictAppendAt d k v ≠ [] := by
  rw [dictAppendAt]
  cases hl : dictLookup d k with
  | some l =>
    cases d with
    | nil => simp [dictLookup] at hl
    | cons p rest => simp [dictInsert]; split <;> simp
  | none => simp

lemma icc_conjunct_step (tags : List LicenseTag) (fname : String) (st0 : ICCState)
    (c : String) (hsf : ∀ t ∈ tags, t.source_files.isSome = true) :
    ∃ st1, icc_process_conjunct tags fname st0 c = .ok st1
      ∧ (st1.files_with_uncovered_licenses = [] ↔
          st0.files_with_uncovered_licenses = [] ∧ conjunct_uncovered tags c = false)
      ∧ (st1.files_with_unofficial_tag = [] ↔
          st0.files_with_unofficial_tag = [] ∧ conjunct_unofficial tags c = false)
      ∧ (st1.files_not_matched_by_any_license_tag = [] ↔
          st0.files_not_matched_by_any_license_tag = []
            ∧ conjunct_not_attributed tags fname c = false) := by
  cases hft : findTag tags c with
  | none =>
    cases hu : unofficial_licenses_lookup tags c with
    | none =>
      refine ⟨{ st0 with files_with_uncovered_licenses := dictAppendAt st0.files_with_uncovered_licenses fname c }, ?_, ?_, ?_, ?_⟩
      · simp [icc_process_conjunct, hft, hu]
      all_goals
        simp [conjunct_uncovered, conjunct_unofficial, conjunct_not_attributed,
          hft, hu, dictAppendAt_ne_nil]
    | some key =>
      refine ⟨{ st0 with files_with_unofficial_tag := dictAppendAt (dictAppendAt st0.files_with_unofficial_tag fname c) fname key }, ?_, ?_, ?_, ?_⟩
      · simp [icc_process_conjunct, hft, hu]
      all_goals
        simp [conjunct_uncovered, conjunct_unofficial, conjunct_not_attributed,
          hft, hu, dictAppendAt_ne_nil]
  | some t =>
    have hmem : t ∈ tags := List.mem_of_find?_eq_some hft
    cases hs : t.source_files with
    | none => exact absurd (hsf t hmem) (by simp [hs])
    | some sf =>
      by_cases hin : fname ∈ sf
      · refine ⟨st0, ?_, ?_, ?_, ?_⟩
        · simp [icc_process_conjunct, hft, hs, hin]
        all_goals
          simp [conjunct_uncovered, conjunct_unofficial, conjunct_not_attributed,
            hft, hs, hin]
      · refine ⟨{ st0 with files_not_matched_by_any_license_tag := dictAppendAt st0.files_not_matched_by_any_license_tag fname c }, ?_, ?_, ?_, ?_⟩
        · simp [icc_process_conjunct, hft, hs, hin]
        all_goals
          simp [conjunct_uncovered, conjunct_unofficial, conjunct_not_attributed,
            hft, hs, hin, dictAppendAt_ne_nil]

set_option maxHeartbeats 1000000 in
lemma icc_conjuncts_spec (tags : List LicenseTag) (fname : String)
    (hsf : ∀ t ∈ tags, t.source_files.isSome = true) (cs : List String) :
    ∀ st0 : ICCState, ∃ st, cs.foldlM (icc_process_conjunct tags fname) st0 = .ok st
      ∧ (st.files_with_uncovered_licenses = [] ↔
          st0.files_with_uncovered_licenses = []
            ∧ cs.any (conjunct_uncovered tags) = false)
      ∧ (st.files_with_unofficial_tag = [] ↔
          st0.files_with_unofficial_tag = []
            ∧ cs.any (conjunct_unofficial tags) = false)
      ∧ (st.files_not_matched_by_any_license_tag = [] ↔
          st0.files_not_matched_by_any_license_tag = []
            ∧ cs.any (conjunct_not_attributed tags fname) = false) := by
  induction cs with
  | nil =>
    intro st0
    exact ⟨st0, by simp [List.foldlM_nil, except_pure_eq], by simp, by simp, by simp⟩
  | cons c cs ih =>
    intro st0
    obtain ⟨st1, hstep, hu1, ho1, hn1⟩ := icc_conjunct_step tags fname st0 c hsf
    obtain ⟨st, hfold, hu2, ho2, hn2⟩ := ih st1
    refine ⟨st, ?_, ?_, ?_, ?_⟩
    · rw [List.foldlM_cons]
      rw [hstep]
      rw [except_bind_ok]
      exact hfold
    · rw [hu2, hu1, List.any_cons, Bool.or_eq_false_iff, and_assoc]
    · rw [ho2, ho1, List.any_cons, Bool.or_eq_false_iff, and_assoc]
    · rw [hn2, hn1, List.any_cons, Bool.or_eq_false_iff, and_assoc]

lemma has_uncovered_cons (tags : List LicenseTag) (lfs : List String)
    (p : String × ScanResult) (rest : Dict ScanResult) :
    has_uncovered_license tags lfs (p :: rest)
      = ((relevant_code_file lfs p
          && (p.2.detected_license_expression_spdx.splitOn " AND ").any
            (conjunct_uncovered tags))
        || has_uncovered_license tags lfs rest) := rfl

lemma has_unofficial_cons (tags : List LicenseTag) (lfs : List String)
    (p : String × ScanResult) (rest : Dict ScanResult) :
    has_unofficial_tag_record tags lfs (p :: rest)
      = ((relevant_code_file lfs p
          && (p.2.detected_license_expression_spdx.splitOn " AND ").any
            (conjunct_unofficial tags))
        || has_unofficial_tag_record tags lfs rest) := rfl

lemma has_not_attributed_cons (tags : List LicenseTag) (lfs : List String)
    (p : String × ScanResult) (rest : Dict ScanResult) :
    has_not_attributed_record tags lfs (p :: rest)
      = ((relevant_code_file lfs p
          && (p.2.detected_license_expression_spdx.splitOn " AND ").any
            (conjunct_not_attributed tags p.1))
        || has_not_attributed_record tags lfs rest) := rfl

lemma icc_files_spec (tags : List LicenseTag) (license_files : List String)
    (hsf : ∀ t ∈ tags, t.source_files.isSome = true) (files : Dict ScanResult) :
    ∀ st0 : ICCState, ∃ st,
      files.foldlM (icc_process_file tags license_files) st0 = .ok st
      ∧ (st.files_with_uncovered_licenses = [] ↔
          st0.files_with_uncovered_licenses = []
            ∧ has_uncovered_license tags license_files files = false)
      ∧ (st.files_with_unofficial_tag = [] ↔
          st0.files_with_unofficial_tag = []
            ∧ has_unofficial_tag_record tags license_files files = false)
      ∧ (st.files_not_matched_by_any_license_tag = [] ↔
          st0.files_not_matched_by_any_license_tag = []
            ∧ has_not_attributed_record tags license_files files = false) := by
  induction files with
  | nil =>
    intro st0
    exact ⟨st0, by simp [List.foldlM_nil, except_pure_eq],
      by simp [has_uncovered_license], by simp [has_unofficial_tag_record],
      by simp [has_not_attributed_record]⟩
  | cons p rest ih =>
    intro st0
    by_cases h1 : p.1 ∈ license_files
    · have hstep : icc_process_file tags license_files st0 p = .ok st0 := by
        simp [icc_process_file, h1]
      have htrig : relevant_code_file license_files p = false := by
        simp [relevant_code_file, h1]
      obtain ⟨st, hfold, hu, ho, hn⟩ := ih st0
      refine ⟨st, ?_, ?_, ?_, ?_⟩
      · rw [List.foldlM_cons, hstep, except_bind_ok]
        exact hfold
      · rw [hu, has_uncovered_cons, htrig, Bool.false_and, Bool.false_or]
      · rw [ho, has_unofficial_cons, htrig, Bool.false_and, Bool.false_or]
      · rw [hn, has_not_attributed_cons, htrig, Bool.false_and, Bool.false_or]
    · by_cases h2 : p.2.detected_license_expression_spdx = ""
      · have hstep : icc_process_file tags license_files st0 p = .ok st0 := by
          simp [icc_process_file, h1, h2]
        have htrig : relevant_code_file license_files p = false := by
          simp [relevant_code_file, h2]
        obtain ⟨st, hfold, hu, ho, hn⟩ := ih st0
        refine ⟨st, ?_, ?_, ?_, ?_⟩
        · rw [List.foldlM_cons, hstep, except_bind_ok]
          exact hfold
        · rw [hu, has_uncovered_cons, htrig, Bool.false_and, Bool.false_or]
        · rw [ho, has_unofficial_cons, htrig, Bool.false_and, Bool.false_or]
        · rw [hn, has_not_attributed_cons, htrig, Bool.false_and, Bool.false_or]
      · have hrel : relevant_code_file license_files p = true := by
          simp [relevant_code_file, h1, h2]
        obtain ⟨st1, hstep0, hu1, ho1, hn1⟩ := icc_conjuncts_spec tags p.1 hsf
          (p.2.detected_license_expression_spdx.splitOn " AND ") st0
        have hstep : icc_process_file tags license_files st0 p = .ok st1 := by
          simp only [icc_process_file, if_neg h1, if_neg h2]
          exact hstep0
        obtain ⟨st, hfold, hu2, ho2, hn2⟩ := ih st1
        refine ⟨st, ?_, ?_, ?_, ?_⟩
        · rw [List.foldlM_cons, hstep, except_bind_ok]
          exact hfold
        · rw [hu2, hu1, has_uncovered_cons, hrel, Bool.true_and,
            Bool.or_eq_false_iff, and_assoc]
        · rw [ho2, ho1, has_unofficial_cons, hrel, Bool.true_and,
            Bool.or_eq_false_iff, and_assoc]
        · rw [hn2, hn1, has_not_attributed_cons, hrel, Bool.true_and,
            Bool.or_eq_false_iff, and_assoc]

/-- Claim C2: the Code-Licenses-Covered check aggregates its per-file
records in a fixed priority order — any uncovered-license conjunct (matching
no declaration and no unofficial-tag correspondence) makes the package
verdict `FAILURE`; otherwise any unofficial-tag correspondence makes it
`WARNING`; otherwise any declared-but-not-attributed conjunct makes it
`FAILURE`; otherwise `SUCCESS` — where conjunctive detected expressions are
split on `" AND "`, each conjunct evaluated independently, and declared
license-text files (as well as files with empty detected expressions) are
skipped. -/
theorem code_licenses_covered_priority (pkg : PackageModel) (license_files : List String)
    (hne : pkg.license_tags ≠ [])
    (hsf : ∀ t ∈ pkg.license_tags, t.source_files.isSome = true)
    (hlf : get_license_files pkg.license_tags = .ok license_files) :
    ∃ r, licenses_in_code_check pkg = .ok r ∧
      r.status =
        (if has_uncovered_license pkg.license_tags license_files
            pkg.found_files_w_licenses = true then Status.FAILURE
         else if has_unofficial_tag_record pkg.license_tags license_files
            pkg.found_files_w_licenses = true then Status.WARNING
         else if has_not_attributed_record pkg.license_tags license_files
            pkg.found_files_w_licenses = true then Status.FAILURE
         else Status.SUCCESS) := by
  obtain ⟨st, hfold, hu, ho, hn⟩ := icc_files_spec pkg.license_tags license_files hsf
    pkg.found_files_w_licenses ⟨[], [], []⟩
  refine ⟨icc_evaluate_result st, ?_, ?_⟩
  · simp only [licenses_in_code_check]
    rw [if_neg (by simp [hne])]
    rw [hlf, except_bind_ok]
    simp only [icc_check_license_files]
    rw [hfold, except_bind_ok]
    rfl
  · cases hU : has_uncovered_license pkg.license_tags license_files
        pkg.found_files_w_licenses with
    | true =>
      have hne' : st.files_with_uncovered_licenses ≠ [] := by
        intro heq
        have h2 := (hu.mp heq).2
        rw [hU] at h2
        exact absurd h2 (by simp)
      rw [icc_evaluate_result, if_pos hne']
      rfl
    | false =>
      have hempty : st.files_with_uncovered_licenses = [] := hu.mpr ⟨rfl, hU⟩
      rw [icc_evaluate_result, if_neg (not_not_intro hempty)]
      cases hO : has_unofficial_tag_record pkg.license_tags license_files
          pkg.found_files_w_licenses with
      | true =>
        have hne' : st.files_with_unofficial_tag ≠ [] := by
          intro heq
          have h2 := (ho.mp heq).2
          rw [hO] at h2
          exact absurd h2 (by simp)
        rw [if_pos hne']
        rfl
      | false =>
        have hempty2 : st.files_with_unofficial_tag = [] := ho.mpr ⟨rfl, hO⟩
        rw [if_neg (not_not_intro hempty2)]
        cases hN : has_not_attributed_record pkg.license_tags license_files
            pkg.found_files_w_licenses with
        | true =>
          have hne' : st.files_not_matched_by_any_license_tag ≠ [] := by
            intro heq
            have h2 := (hn.mp heq).2
            rw [hN] at h2
            exact absurd h2 (by simp)
          rw [if_pos (List.length_pos.mpr hne')]
          rfl
        | false =>
          have hempty3 : st.files_not_matched_by_any_license_tag = [] := hn.mpr ⟨rfl, hN⟩
          rw [if_neg (by simp [hempty3])]
          rfl

/-- Witness for claim C2: one declared `MIT` owning no files, one scanned
code file detected as `Apache-2.0` — an uncovered license, so `FAILURE`. -/
theorem code_licenses_covered_priority_witness :
    ∃ r, licenses_in_code_check
        ⟨[⟨"MIT", none, some "LICENSE", some ∅⟩], [],
          [("b.py", ⟨0, "Apache-2.0"⟩)], [], ["pkg"]⟩ = .ok r ∧
      r.status =
        (if has_uncovered_license [⟨"MIT", none, some "LICENSE", some ∅⟩] ["LICENSE"]
            [("b.py", ⟨0, "Apache-2.0"⟩)] = true then Status.FAILURE
         else if has_unofficial_tag_record [⟨"MIT", none, some "LICENSE", some ∅⟩]
            ["LICENSE"] [("b.py", ⟨0, "Apache-2.0"⟩)] = true then Status.WARNING
         else if has_not_attributed_record [⟨"MIT", none, some "LICENSE", some ∅⟩]
            ["LICENSE"] [("b.py", ⟨0, "Apache-2.0"⟩)] = true then Status.FAILURE
         else Status.SUCCESS) :=
  code_licenses_covered_priority
    ⟨[⟨"MIT", none, some "LICENSE", some ∅⟩], [],
      [("b.py", ⟨0, "Apache-2.0"⟩)], [], ["pkg"]⟩
    ["LICENSE"] (by simp)
    (fun t ht => by rcases List.mem_singleton.mp ht with rfl; rfl) rfl
